import Mathlib

/-!
# Instrumentor: trace session and scope timer

A shallow embedding of `src/instrumentor.h`.

* `std::string` is a Lean `String` (a sequence of characters).
* `int`, `long long` and `unsigned long long` values are integers; the one
  `int` increment and the one `long long` subtraction of the source are
  reduced into their 32 and 64 bit two's complement ranges.  A signed
  overflow is undefined in C++, so the theorems that depend on the value
  of such an operation assume that it stays in range.
* `std::ofstream` is a record of the path it is open on (if any) and whether
  its error state is clear; the files it writes are part of an explicit file
  system.  The file system resolves a path to the file it names, so that two
  spellings of a path (`./demo.json` and `demo.json`) can name one file, and
  maps a file to its content.  Nothing else writes to the disk.
  A write to a file that is open succeeds.  Every member function of the
  source flushes before it returns, so the content of a file is what has been
  written to it.
* The steady clock and the hash of the current thread id are inputs of the
  operations that read them.
-/

/-! ## Machine integers -/

/-- Value of an integer in the 32 bit two's complement range (`int`). -/
def int32 (x : Int) : Int := (x + 2147483648) % 4294967296 - 2147483648

/-- Value of an integer in the 64 bit two's complement range (`long long`). -/
def int64 (x : Int) : Int :=
  (x + 9223372036854775808) % 18446744073709551616 - 9223372036854775808

/-! ## Files and the output stream -/

/-- The file system: `resolve` gives the file a path names (two paths name
the same file when they resolve alike), `files` the content of each file
(`none` when there is no such file), and `creatable` says whether a file can
be created or truncated at a path. -/
structure FileSystem where
  files : String → Option String
  creatable : String → Bool
  resolve : String → String

/-- The content of the file that `path` names. -/
def FileSystem.content (d : FileSystem) (path : String) : Option String :=
  d.files (d.resolve path)

/-- The file that `path` names is created, or emptied when it exists. -/
def FileSystem.truncate (path : String) (d : FileSystem) : FileSystem :=
  { d with files := fun f => if f = d.resolve path then some "" else d.files f }

/-- The file that `path` names gets `s` written at its end. -/
def FileSystem.append (path s : String) (d : FileSystem) : FileSystem :=
  { d with files := fun f =>
      if f = d.resolve path then (d.files f).map (fun c => c ++ s) else d.files f }

/-- A `std::ofstream`: `file` is the path its buffer is open on, `good` says
that no error bit is set. -/
structure OfStream where
  file : Option String
  good : Bool

/-- `ProfileResult` of the source. -/
structure ProfileResult where
  name : String
  start : Int
  end_ : Int
  thread_id : Nat

/-- The data members of `Instrumentor` (the mutex apart). -/
structure Instrumentor where
  session_name_ : String
  profile_count_ : Int
  is_active_ : Bool
  output_stream_ : OfStream

/-- The process: the one `Instrumentor` instance and the disk it writes to. -/
structure World where
  self : Instrumentor
  disk : FileSystem

namespace World

/-- `output_stream_.open(path)`: fails when the stream is already open or the
file cannot be created; a successful open clears the error state and leaves
an empty file. -/
def openStream (path : String) (w : World) : World :=
  match w.self.output_stream_.file with
  | some _ =>
    { w with self := { w.self with
        output_stream_ := { w.self.output_stream_ with good := false } } }
  | none =>
    if w.disk.creatable path then
      { self := { w.self with output_stream_ := { file := some path, good := true } },
        disk := w.disk.truncate path }
    else
      { w with self := { w.self with
          output_stream_ := { w.self.output_stream_ with good := false } } }

/-- `output_stream_ << s`: nothing happens when an error bit is set; on an
open stream the characters reach the file; on a closed stream the insertion
of a character fails and sets an error bit. -/
def put (s : String) (w : World) : World :=
  if w.self.output_stream_.good then
    match w.self.output_stream_.file with
    | some p => { w with disk := w.disk.append p s }
    | none =>
      if s = "" then w
      else
        { w with self := { w.self with
            output_stream_ := { w.self.output_stream_ with good := false } } }
  else w

/-- `output_stream_.flush()`: the content of a file is modelled as already
written, so nothing changes. -/
def flush (w : World) : World := w

/-- `output_stream_.close()`: closes the file; on a stream that is not open
it sets an error bit. -/
def closeStream (w : World) : World :=
  match w.self.output_stream_.file with
  | some _ =>
    { w with self := { w.self with
        output_stream_ := { w.self.output_stream_ with file := none } } }
  | none =>
    { w with self := { w.self with
        output_stream_ := { w.self.output_stream_ with good := false } } }

end World

/-! ## Instrumentor -/

namespace Instrumentor

/-- The constructor `Instrumentor()`, with a default constructed stream. -/
def init : Instrumentor :=
  { session_name_ := "", profile_count_ := 0, is_active_ := false,
    output_stream_ := { file := none, good := true } }

/-- `WriteHeader`. -/
def WriteHeader (w : World) : World :=
  (w.put "\x7b \"otherData\": \x7b\x7d, \"traceEvents\": [").flush

/-- `WriteFooter`. -/
def WriteFooter (w : World) : World :=
  (w.put "]\x7d").flush

/-- `EndSessionImpl`. -/
def EndSessionImpl (w : World) : World :=
  if !w.self.is_active_ then w
  else
    let w1 : World := { w with self := { w.self with is_active_ := false } }
    let w2 : World := { w1 with self := { w1.self with profile_count_ := 0 } }
    (WriteFooter w2).closeStream

/-- `BeginSessionImpl`. -/
def BeginSessionImpl (session_name output_dir : String) (w : World) : World :=
  let w1 : World := if w.self.is_active_ then EndSessionImpl w else w
  let w2 : World := { w1 with self := { w1.self with session_name_ := session_name } }
  let w3 : World := { w2 with self := { w2.self with is_active_ := true } }
  WriteHeader (w3.openStream (output_dir ++ w3.self.session_name_ ++ ".json"))

/-- The `std::replace(name.begin(), name.end(), '"', '\'')` of
`WriteProfileImpl`: every double quote becomes a single quote. -/
def replaceQuotes (name : String) : String :=
  ⟨name.data.map (fun c => if c = '"' then '\'' else c)⟩

/-- `WriteProfileImpl`: the post-increment of `profile_count_` and the
insertions into `output_stream_`, one line of the source each. -/
def WriteProfileImpl (result : ProfileResult) (w : World) : World :=
  let old := w.self.profile_count_
  let w0 : World := { w with self := { w.self with profile_count_ := int32 (old + 1) } }
  let w1 : World := if old > 0 then w0.put ", " else w0
  let name := replaceQuotes result.name
  let w2 := w1.put "\x7b"
  let w3 := (w2.put "\"cat\": \"function\", ")
  let w4 := ((w3.put "\"dur\": ").put (toString (int64 (result.end_ - result.start)))).put ", "
  let w5 := ((w4.put "\"name\": \"").put name).put "\", "
  let w6 := w5.put "\"ph\": \"X\", "
  let w7 := ((w6.put "\"pid\": \"").put w6.self.session_name_).put "\", "
  let w8 := ((w7.put "\"tid\": ").put (toString result.thread_id)).put ", "
  let w9 := (w8.put "\"ts\": ").put (toString result.start)
  let w10 := w9.put "\x7d"
  w10.flush

end Instrumentor

/-! ## InstrumentorTimer -/

/-- The data members of `InstrumentorTimer`; `start_` is the reading of the
steady clock at construction, in nanoseconds. -/
structure InstrumentorTimer where
  name_ : String
  is_stop_ : Bool
  start_ : Int

namespace InstrumentorTimer

/-- `time_point_cast<microseconds>(t).time_since_epoch().count()`: the
nanosecond count divided by 1000, rounded toward zero. -/
def toMicroseconds (t : Int) : Int := Int.tdiv t 1000

/-- The constructor: `now` is the reading of the steady clock. -/
def create (name : String) (now : Int) : InstrumentorTimer :=
  { name_ := name, is_stop_ := false, start_ := now }

/-- `Stop`: `now` is the reading of the steady clock and `tid` the hash of the
current thread id. -/
def Stop (now : Int) (tid : Nat) (t : InstrumentorTimer) (w : World) :
    InstrumentorTimer × World :=
  let start := toMicroseconds t.start_
  let end_ := toMicroseconds now
  let w1 := Instrumentor.WriteProfileImpl
    { name := t.name_, start := start, end_ := end_, thread_id := tid } w
  ({ t with is_stop_ := true }, w1)

/-- The destructor `~InstrumentorTimer`. -/
def destroy (now : Int) (tid : Nat) (t : InstrumentorTimer) (w : World) :
    InstrumentorTimer × World :=
  if !t.is_stop_ then Stop now tid t w else (t, w)

end InstrumentorTimer

/-! ## Sequences of calls -/

/-- A call of the public interface of `Instrumentor`. -/
inductive Call where
  | BeginSession (session_name output_dir : String)
  | EndSession
  | WriteProfile (result : ProfileResult)

/-- One call of the public interface. -/
def Call.apply (w : World) : Call → World
  | .BeginSession session_name output_dir =>
    Instrumentor.BeginSessionImpl session_name output_dir w
  | .EndSession => Instrumentor.EndSessionImpl w
  | .WriteProfile result => Instrumentor.WriteProfileImpl result w

/-- The calls of a list, first to last. -/
def run (w : World) (calls : List Call) : World := calls.foldl Call.apply w

/-- The process before the first call: the freshly constructed instance on a
given disk. -/
def fresh (d : FileSystem) : World := { self := Instrumentor.init, disk := d }

/-- A disk with no file, on which every path can be created and every path
names a file of its own. -/
def emptyDisk : FileSystem :=
  { files := fun _ => none, creatable := fun _ => true, resolve := fun p => p }

/-! ## What a session leaves in its file -/

/-- The text of one event object, in the order in which `WriteProfileImpl`
inserts its pieces; `session_name` is the value of `session_name_`. -/
def eventObject (session_name : String) (e : ProfileResult) : String :=
  "\x7b" ++ "\"cat\": \"function\", " ++
  "\"dur\": " ++ toString (int64 (e.end_ - e.start)) ++ ", " ++
  "\"name\": \"" ++ Instrumentor.replaceQuotes e.name ++ "\", " ++
  "\"ph\": \"X\", " ++
  "\"pid\": \"" ++ session_name ++ "\", " ++
  "\"tid\": " ++ toString e.thread_id ++ ", " ++
  "\"ts\": " ++ toString e.start ++ "\x7d"

/-- The separator `WriteProfileImpl` inserts before an event object when the
counter holds `count` before its increment. -/
def separator (count : Int) : String := if count > 0 then ", " else ""

/-- What a run of `WriteProfileImpl` calls inserts when the counter holds
`count` before the first of them. -/
def written (session_name : String) : Int → List ProfileResult → String
  | _, [] => ""
  | count, e :: es =>
    separator count ++ eventObject session_name e ++
      written session_name (int32 (count + 1)) es

/-- Strings joined by the separator `, `. -/
def joinComma : List String → String
  | [] => ""
  | [x] => x
  | x :: y :: rest => x ++ ", " ++ joinComma (y :: rest)

/-- The header written by `WriteHeader`. -/
def header : String := "\x7b \"otherData\": \x7b\x7d, \"traceEvents\": ["

/-- The footer written by `WriteFooter`. -/
def footer : String := "]\x7d"

/-- The stream is open on `p` with no error bit set. -/
def World.OpenOn (p : String) (w : World) : Prop :=
  w.self.output_stream_.file = some p ∧ w.self.output_stream_.good = true

/-- The event of the demo: a timer `work` that ran for one millisecond. -/
def demoEvent : ProfileResult :=
  { name := "work", start := 5, end_ := 1005, thread_id := 7 }

/-- An event whose name holds two double quotes. -/
def quotedEvent : ProfileResult :=
  { name := "work \"A\"", start := 5, end_ := 1005, thread_id := 7 }

/-- The events of a list written by `WriteProfileImpl`, first to last. -/
def writeAll (w : World) (events : List ProfileResult) : World :=
  events.foldl (fun v e => Instrumentor.WriteProfileImpl e v) w

/-- The counter after `n` increments. -/
def bump : Int → Nat → Int
  | count, 0 => count
  | count, n + 1 => bump (int32 (count + 1)) n

/-- The text after the first event object of a session. -/
def tailText (session_name : String) : List ProfileResult → String
  | [] => ""
  | e :: es => ", " ++ eventObject session_name e ++ tailText session_name es

/-- What holds of every state the interface reaches: an inactive session has
a closed stream, an open stream has no error bit set and its file exists, and
the counter is an `int`. -/
structure World.Inv (w : World) : Prop where
  closed : w.self.is_active_ = false → w.self.output_stream_.file = none
  good : ∀ p, w.self.output_stream_.file = some p → w.self.output_stream_.good = true
  present : ∀ p, w.self.output_stream_.file = some p → ∃ c, w.disk.content p = some c
  count : -2147483648 ≤ w.self.profile_count_ ∧ w.self.profile_count_ ≤ 2147483647

/-- A disk with no file, on which no file can be created. -/
def lockedDisk : FileSystem :=
  { files := fun _ => none, creatable := fun _ => false, resolve := fun p => p }

/-- A disk with no file, on which every path can be created and a leading
`./` does not change the file a path names: `./demo.json` and `demo.json`
are one file. -/
def aliasDisk : FileSystem :=
  { files := fun _ => none, creatable := fun _ => true,
    resolve := fun p =>
      match p.data with
      | '.' :: '/' :: rest => String.mk rest
      | _ => p }

/-- A session name that holds a double quote. -/
def quotedSession : String := "a\"b"

/-- The flag and the number of `WriteProfile` calls since the last end of an
active session, told from the calls alone: an `EndSession` sequence (that of
`EndSession`, or that at the start of `BeginSession`) which finds the session
active sets the number to zero, one which finds it inactive leaves it, and
`WriteProfile` adds one. -/
def countStep : Bool × Nat → Call → Bool × Nat
  | (active, n), .BeginSession _ _ => (true, if active then 0 else n)
  | (active, n), .EndSession => (false, if active then 0 else n)
  | (active, n), .WriteProfile _ => (active, n + 1)

/-- The flag and the number of `WriteProfile` calls since the last end of an
active session after the calls of a list, from the freshly constructed
session (inactive, no call made). -/
def countAfter (calls : List Call) : Bool × Nat := calls.foldl countStep (false, 0)

/-- The session name, the flag and the counter of a state. -/
def World.control (w : World) : String × Bool × Int :=
  (w.self.session_name_, w.self.is_active_, w.self.profile_count_)

/-! ## Lemmas on the stream -/

theorem FileSystem.append_append (d : FileSystem) (p a b : String) :
    (d.append p a).append p b = d.append p (a ++ b) := by
  unfold FileSystem.append
  congr 1
  funext f
  by_cases h : f = d.resolve p
  · cases hc : d.files (d.resolve p) <;> simp [h, hc, String.append_assoc]
  · simp [h]

theorem FileSystem.append_empty (d : FileSystem) (p : String) :
    d.append p "" = d := by
  unfold FileSystem.append
  cases d with
  | mk files creatable resolve =>
    congr 1
    funext f
    by_cases h : f = resolve p
    · cases hc : files (resolve p) <;> simp [h, hc]
    · simp [h]

theorem World.put_of_open {w : World} {p : String} (h : w.OpenOn p) (s : String) :
    w.put s = { self := w.self, disk := w.disk.append p s } := by
  simp [World.put, h.1, h.2]

theorem World.put_counted {w : World} {p : String} (h : w.OpenOn p) (c : Int)
    (d : FileSystem) (s : String) :
    World.put s { self := { w.self with profile_count_ := c }, disk := d } =
      { self := { w.self with profile_count_ := c }, disk := d.append p s } := by
  simp [World.put, h.1, h.2]

/-- On an open stream `WriteProfileImpl` increments the counter and appends
the separator and the event object to the file. -/
theorem Instrumentor.WriteProfileImpl_of_open {w : World} {p : String}
    (h : w.OpenOn p) (e : ProfileResult) :
    Instrumentor.WriteProfileImpl e w =
      { self := { w.self with profile_count_ := int32 (w.self.profile_count_ + 1) },
        disk := w.disk.append p
          (separator w.self.profile_count_ ++ eventObject w.self.session_name_ e) } := by
  unfold Instrumentor.WriteProfileImpl separator eventObject
  by_cases hc : w.self.profile_count_ > 0
  · simp only [hc, if_true, World.flush, World.put_counted h, FileSystem.append_append,
      String.append_assoc]
  · simp only [hc, if_false, World.flush, World.put_counted h, FileSystem.append_append,
      String.append_assoc, String.empty_append]

theorem int32_succ {k : Int} (h0 : -2147483649 ≤ k) (h1 : k < 2147483647) :
    int32 (k + 1) = k + 1 := by
  unfold int32; omega

theorem int32_range (x : Int) : -2147483648 ≤ int32 x ∧ int32 x ≤ 2147483647 := by
  unfold int32; omega

theorem bump_of_small : ∀ (n : Nat) (k : Int), 0 ≤ k → k + n ≤ 2147483647 →
    bump k n = k + n
  | 0, k, _, _ => by simp [bump]
  | n + 1, k, h0, h1 => by
    have hk : int32 (k + 1) = k + 1 := int32_succ (by omega) (by push_cast at h1; omega)
    rw [bump, hk, bump_of_small n (k + 1) (by omega) (by push_cast at h1; omega)]
    push_cast; ring

/-- Writing a list of events on an open stream. -/
theorem writeAll_of_open : ∀ (events : List ProfileResult) {w : World} {p : String},
    w.OpenOn p →
    writeAll w events =
      { self := { w.self with profile_count_ := bump w.self.profile_count_ events.length },
        disk := w.disk.append p
          (written w.self.session_name_ w.self.profile_count_ events) }
  | [], w, p, _ => by
    simp [writeAll, bump, written, FileSystem.append_empty]
  | e :: es, w, p, h => by
    have h1 : (Instrumentor.WriteProfileImpl e w).OpenOn p := by
      rw [Instrumentor.WriteProfileImpl_of_open h]; exact h
    have ih := writeAll_of_open es h1
    have hstep : writeAll w (e :: es) = writeAll (Instrumentor.WriteProfileImpl e w) es := rfl
    rw [hstep, ih, Instrumentor.WriteProfileImpl_of_open h]
    simp only [FileSystem.append_append, written, bump, List.length_cons, String.append_assoc]

theorem run_append (w : World) (xs ys : List Call) :
    run w (xs ++ ys) = run (run w xs) ys := by
  simp [run, List.foldl_append]

theorem run_writes (w : World) (events : List ProfileResult) :
    run w (events.map Call.WriteProfile) = writeAll w events := by
  simp [run, writeAll, List.foldl_map, Call.apply]

theorem written_of_pos (S : String) : ∀ (events : List ProfileResult) (k : Int),
    0 < k → k + events.length ≤ 2147483647 →
    written S k events = tailText S events
  | [], _, _, _ => rfl
  | e :: es, k, h0, h1 => by
    simp only [List.length_cons] at h1
    push_cast at h1
    have hk : int32 (k + 1) = k + 1 := int32_succ (by omega) (by omega)
    rw [written, tailText, hk, written_of_pos S es (k + 1) (by omega) (by omega)]
    simp [separator, h0]

theorem joinComma_cons (S : String) (e : ProfileResult) : ∀ (es : List ProfileResult),
    joinComma ((e :: es).map (eventObject S)) = eventObject S e ++ tailText S es
  | [] => by simp [joinComma, tailText]
  | e2 :: es => by
    have ih := joinComma_cons S e2 es
    simp only [List.map_cons] at ih ⊢
    rw [joinComma, ih, tailText]
    simp only [String.append_assoc]

/-- From a counter of zero, fewer than `2 ^ 31` writes insert the event
objects joined by the separator. -/
theorem written_zero (S : String) (events : List ProfileResult)
    (h : events.length < 2147483648) :
    written S 0 events = joinComma (events.map (eventObject S)) := by
  cases events with
  | nil => rfl
  | cons e es =>
    simp only [List.length_cons] at h
    rw [joinComma_cons, written]
    have h1 : int32 (0 + 1) = 1 := by decide
    rw [h1, written_of_pos S es 1 (by omega) (by omega)]
    simp [separator]

/-! ## Lemmas on the operations -/

/-- On a stream with an error bit set `WriteProfileImpl` only increments the
counter. -/
theorem Instrumentor.WriteProfileImpl_of_bad {w : World}
    (hg : w.self.output_stream_.good = false) (e : ProfileResult) :
    Instrumentor.WriteProfileImpl e w =
      { self := { w.self with profile_count_ := int32 (w.self.profile_count_ + 1) },
        disk := w.disk } := by
  unfold Instrumentor.WriteProfileImpl
  by_cases hc : w.self.profile_count_ > 0 <;> simp [hc, World.put, World.flush, hg]

/-- On a closed stream `WriteProfileImpl` increments the counter; the first
insertion fails and nothing reaches the disk. -/
theorem Instrumentor.WriteProfileImpl_of_closed {w : World}
    (hf : w.self.output_stream_.file = none) (e : ProfileResult) :
    Instrumentor.WriteProfileImpl e w =
      { self := { w.self with
          profile_count_ := int32 (w.self.profile_count_ + 1),
          output_stream_ := { file := none, good := false } },
        disk := w.disk } := by
  cases hg : w.self.output_stream_.good with
  | false =>
    rw [Instrumentor.WriteProfileImpl_of_bad hg]
    have hs : w.self.output_stream_ = { file := none, good := false } := by
      cases hst : w.self.output_stream_ with
      | mk f g => rw [hst] at hf hg; simp at hf hg; rw [hf, hg]
    simp only [hs]
  | true =>
    unfold Instrumentor.WriteProfileImpl
    by_cases hc : w.self.profile_count_ > 0 <;> simp [hc, World.put, World.flush, hg, hf]

theorem Instrumentor.EndSessionImpl_of_inactive {w : World}
    (h : w.self.is_active_ = false) : Instrumentor.EndSessionImpl w = w := by
  simp [Instrumentor.EndSessionImpl, h]

/-- `EndSessionImpl` on an active session whose stream is open. -/
theorem Instrumentor.EndSessionImpl_of_open {w : World} {p : String}
    (ha : w.self.is_active_ = true) (h : w.OpenOn p) :
    Instrumentor.EndSessionImpl w =
      { self := { session_name_ := w.self.session_name_, profile_count_ := 0,
                  is_active_ := false, output_stream_ := { file := none, good := true } },
        disk := w.disk.append p footer } := by
  simp [Instrumentor.EndSessionImpl, Instrumentor.WriteFooter, World.put, World.flush,
    World.closeStream, ha, h.1, h.2, footer]

/-- `EndSessionImpl` on an active session whose stream is closed. -/
theorem Instrumentor.EndSessionImpl_of_closed {w : World}
    (ha : w.self.is_active_ = true) (hf : w.self.output_stream_.file = none) :
    Instrumentor.EndSessionImpl w =
      { self := { session_name_ := w.self.session_name_, profile_count_ := 0,
                  is_active_ := false, output_stream_ := { file := none, good := false } },
        disk := w.disk } := by
  cases hg : w.self.output_stream_.good <;>
  simp [Instrumentor.EndSessionImpl, Instrumentor.WriteFooter, World.put, World.flush,
    World.closeStream, ha, hf, hg]

/-- `BeginSessionImpl` on an inactive session whose stream is closed, when the
file can be created. -/
theorem Instrumentor.BeginSessionImpl_of_closed {w : World} (name dir : String)
    (ha : w.self.is_active_ = false) (hf : w.self.output_stream_.file = none)
    (hc : w.disk.creatable (dir ++ name ++ ".json") = true) :
    Instrumentor.BeginSessionImpl name dir w =
      { self := { session_name_ := name, profile_count_ := w.self.profile_count_,
                  is_active_ := true,
                  output_stream_ := { file := some (dir ++ name ++ ".json"), good := true } },
        disk := (w.disk.truncate (dir ++ name ++ ".json")).append
          (dir ++ name ++ ".json") header } := by
  simp [Instrumentor.BeginSessionImpl, Instrumentor.WriteHeader, World.put, World.flush,
    World.openStream, ha, hf, hc, header]

/-- `BeginSessionImpl` on an inactive session whose stream is closed, when the
file cannot be created. -/
theorem Instrumentor.BeginSessionImpl_of_failed {w : World} (name dir : String)
    (ha : w.self.is_active_ = false) (hf : w.self.output_stream_.file = none)
    (hc : w.disk.creatable (dir ++ name ++ ".json") = false) :
    Instrumentor.BeginSessionImpl name dir w =
      { self := { session_name_ := name, profile_count_ := w.self.profile_count_,
                  is_active_ := true,
                  output_stream_ := { file := none, good := false } },
        disk := w.disk } := by
  simp [Instrumentor.BeginSessionImpl, Instrumentor.WriteHeader, World.put, World.flush,
    World.openStream, ha, hf, hc]

theorem Instrumentor.EndSessionImpl_inactive (w : World) :
    (Instrumentor.EndSessionImpl w).self.is_active_ = false := by
  rcases w with ⟨⟨n, c, a, ⟨f, g⟩⟩, d⟩
  cases a <;> cases f <;> cases g <;>
    simp [Instrumentor.EndSessionImpl, Instrumentor.WriteFooter, World.put, World.flush,
      World.closeStream]

theorem Instrumentor.EndSessionImpl_closed {w : World} (ha : w.self.is_active_ = true) :
    (Instrumentor.EndSessionImpl w).self.output_stream_.file = none := by
  rcases w with ⟨⟨n, c, a, ⟨f, g⟩⟩, d⟩
  simp only at ha
  subst ha
  cases f <;> cases g <;>
    simp [Instrumentor.EndSessionImpl, Instrumentor.WriteFooter, World.put, World.flush,
      World.closeStream]

theorem Instrumentor.EndSessionImpl_creatable (w : World) :
    (Instrumentor.EndSessionImpl w).disk.creatable = w.disk.creatable := by
  rcases w with ⟨⟨n, c, a, ⟨f, g⟩⟩, d⟩
  cases a <;> cases f <;> cases g <;>
    simp [Instrumentor.EndSessionImpl, Instrumentor.WriteFooter, World.put, World.flush,
      World.closeStream, FileSystem.append]

theorem Instrumentor.BeginSessionImpl_of_active {w : World} (name dir : String)
    (ha : w.self.is_active_ = true) :
    Instrumentor.BeginSessionImpl name dir w =
      Instrumentor.BeginSessionImpl name dir (Instrumentor.EndSessionImpl w) := by
  have h1 := Instrumentor.EndSessionImpl_inactive w
  simp only [Instrumentor.BeginSessionImpl, ha, h1, if_true]
  simp

theorem FileSystem.content_truncate_append (d : FileSystem) (p s : String) :
    ((d.truncate p).append p s).content p = some s := by
  simp [FileSystem.content, FileSystem.truncate, FileSystem.append]

theorem FileSystem.content_truncate_append_of_ne (d : FileSystem) {p q : String} (s : String)
    (h : d.resolve q ≠ d.resolve p) :
    ((d.truncate p).append p s).content q = d.content q := by
  simp [FileSystem.content, FileSystem.truncate, FileSystem.append, h]

theorem FileSystem.content_append_same (d : FileSystem) (p s : String) :
    (d.append p s).content p = (d.content p).map (fun c => c ++ s) := by
  simp [FileSystem.content, FileSystem.append]

theorem FileSystem.content_append_of_ne (d : FileSystem) {p q : String} (s : String)
    (h : d.resolve q ≠ d.resolve p) : (d.append p s).content q = d.content q := by
  simp [FileSystem.content, FileSystem.append, h]

/-! ## States reached by calls of the interface -/

theorem inv_fresh (d : FileSystem) : (fresh d).Inv :=
  ⟨fun _ => rfl, fun _ h => by simp [fresh, Instrumentor.init] at h,
   fun _ h => by simp [fresh, Instrumentor.init] at h,
   by simp [fresh, Instrumentor.init]⟩

theorem inv_WriteProfileImpl {w : World} (h : w.Inv) (e : ProfileResult) :
    (Instrumentor.WriteProfileImpl e w).Inv := by
  cases hf : w.self.output_stream_.file with
  | none =>
    rw [Instrumentor.WriteProfileImpl_of_closed hf]
    exact ⟨fun _ => rfl, fun _ hp => by simp at hp, fun _ hp => by simp at hp,
      int32_range _⟩
  | some p =>
    have ho : w.OpenOn p := ⟨hf, h.good p hf⟩
    rw [Instrumentor.WriteProfileImpl_of_open ho]
    refine ⟨fun ha => h.closed ha, fun q hq => h.good q hq, fun q hq => ?_, int32_range _⟩
    have hq2 : w.self.output_stream_.file = some q := hq
    have hqp : q = p := by rw [hf] at hq2; exact (Option.some.inj hq2).symm
    subst hqp
    obtain ⟨c, hc⟩ := h.present q hf
    refine ⟨c ++ (separator w.self.profile_count_ ++ eventObject w.self.session_name_ e), ?_⟩
    simp only [FileSystem.content_append_same, hc, Option.map_some']

theorem inv_EndSessionImpl {w : World} (h : w.Inv) :
    (Instrumentor.EndSessionImpl w).Inv := by
  cases ha : w.self.is_active_ with
  | false => rw [Instrumentor.EndSessionImpl_of_inactive ha]; exact h
  | true =>
    cases hf : w.self.output_stream_.file with
    | none =>
      rw [Instrumentor.EndSessionImpl_of_closed ha hf]
      exact ⟨fun _ => rfl, fun _ hp => by simp at hp, fun _ hp => by simp at hp, by simp⟩
    | some p =>
      rw [Instrumentor.EndSessionImpl_of_open ha ⟨hf, h.good p hf⟩]
      exact ⟨fun _ => rfl, fun _ hp => by simp at hp, fun _ hp => by simp at hp, by simp⟩

theorem inv_BeginSessionImpl_of_inactive {w : World} (h : w.Inv)
    (ha : w.self.is_active_ = false) (name dir : String) :
    (Instrumentor.BeginSessionImpl name dir w).Inv := by
  have hf := h.closed ha
  cases hc : w.disk.creatable (dir ++ name ++ ".json") with
  | false =>
    rw [Instrumentor.BeginSessionImpl_of_failed name dir ha hf hc]
    exact ⟨fun hx => by simp at hx, fun _ hp => by simp at hp, fun _ hp => by simp at hp,
      h.count⟩
  | true =>
    rw [Instrumentor.BeginSessionImpl_of_closed name dir ha hf hc]
    refine ⟨fun hx => by simp at hx, fun _ _ => rfl, fun q hq => ?_, h.count⟩
    have hq2 : some (dir ++ name ++ ".json") = some q := hq
    have hqp := Option.some.inj hq2
    subst hqp
    exact ⟨header, FileSystem.content_truncate_append _ _ _⟩

theorem inv_BeginSessionImpl {w : World} (h : w.Inv) (name dir : String) :
    (Instrumentor.BeginSessionImpl name dir w).Inv := by
  cases ha : w.self.is_active_ with
  | false => exact inv_BeginSessionImpl_of_inactive h ha name dir
  | true =>
    rw [Instrumentor.BeginSessionImpl_of_active name dir ha]
    exact inv_BeginSessionImpl_of_inactive (inv_EndSessionImpl h)
      (Instrumentor.EndSessionImpl_inactive w) name dir

theorem inv_apply {w : World} (h : w.Inv) (c : Call) : (c.apply w).Inv := by
  cases c with
  | BeginSession name dir => exact inv_BeginSessionImpl h name dir
  | EndSession => exact inv_EndSessionImpl h
  | WriteProfile e => exact inv_WriteProfileImpl h e

theorem inv_run : ∀ (calls : List Call) {w : World}, w.Inv → (run w calls).Inv
  | [], _, h => h
  | c :: cs, _, h => inv_run cs (inv_apply h c)

/-- `WriteProfileImpl` increments the counter in every state. -/
theorem count_WriteProfileImpl (w : World) (e : ProfileResult) :
    (Instrumentor.WriteProfileImpl e w).self.profile_count_ =
      int32 (w.self.profile_count_ + 1) := by
  cases hf : w.self.output_stream_.file with
  | none => rw [Instrumentor.WriteProfileImpl_of_closed hf]
  | some p =>
    cases hg : w.self.output_stream_.good with
    | false => rw [Instrumentor.WriteProfileImpl_of_bad hg]
    | true => rw [Instrumentor.WriteProfileImpl_of_open ⟨hf, hg⟩]

theorem creatable_WriteProfileImpl (w : World) (e : ProfileResult) :
    (Instrumentor.WriteProfileImpl e w).disk.creatable = w.disk.creatable := by
  cases hf : w.self.output_stream_.file with
  | none => rw [Instrumentor.WriteProfileImpl_of_closed hf]
  | some p =>
    cases hg : w.self.output_stream_.good with
    | false => rw [Instrumentor.WriteProfileImpl_of_bad hg]
    | true => rw [Instrumentor.WriteProfileImpl_of_open ⟨hf, hg⟩]; rfl

theorem creatable_BeginSessionImpl {w : World} (h : w.Inv) (name dir : String) :
    (Instrumentor.BeginSessionImpl name dir w).disk.creatable = w.disk.creatable := by
  have key : ∀ v : World, v.Inv → v.self.is_active_ = false →
      (Instrumentor.BeginSessionImpl name dir v).disk.creatable = v.disk.creatable := by
    intro v hv ha
    cases hc : v.disk.creatable (dir ++ name ++ ".json") with
    | false => rw [Instrumentor.BeginSessionImpl_of_failed name dir ha (hv.closed ha) hc]
    | true => rw [Instrumentor.BeginSessionImpl_of_closed name dir ha (hv.closed ha) hc]; rfl
  cases ha : w.self.is_active_ with
  | false => exact key w h ha
  | true =>
    rw [Instrumentor.BeginSessionImpl_of_active name dir ha,
      key _ (inv_EndSessionImpl h) (Instrumentor.EndSessionImpl_inactive w),
      Instrumentor.EndSessionImpl_creatable]

/-- No call changes where a file can be created. -/
theorem creatable_apply {w : World} (h : w.Inv) (c : Call) :
    (c.apply w).disk.creatable = w.disk.creatable := by
  cases c with
  | EndSession => exact Instrumentor.EndSessionImpl_creatable _
  | WriteProfile e => exact creatable_WriteProfileImpl w e
  | BeginSession name dir => exact creatable_BeginSessionImpl h name dir

theorem creatable_run : ∀ (calls : List Call) {w : World}, w.Inv →
    (run w calls).disk.creatable = w.disk.creatable
  | [], _, _ => rfl
  | c :: cs, w, h => by
    have hstep : run w (c :: cs) = run (c.apply w) cs := rfl
    rw [hstep, creatable_run cs (inv_apply h c), creatable_apply h]

theorem Instrumentor.EndSessionImpl_resolve (w : World) :
    (Instrumentor.EndSessionImpl w).disk.resolve = w.disk.resolve := by
  rcases w with ⟨⟨n, c, a, ⟨f, g⟩⟩, d⟩
  cases a <;> cases f <;> cases g <;>
    simp [Instrumentor.EndSessionImpl, Instrumentor.WriteFooter, World.put, World.flush,
      World.closeStream, FileSystem.append]

theorem resolve_WriteProfileImpl (w : World) (e : ProfileResult) :
    (Instrumentor.WriteProfileImpl e w).disk.resolve = w.disk.resolve := by
  cases hf : w.self.output_stream_.file with
  | none => rw [Instrumentor.WriteProfileImpl_of_closed hf]
  | some p =>
    cases hg : w.self.output_stream_.good with
    | false => rw [Instrumentor.WriteProfileImpl_of_bad hg]
    | true => rw [Instrumentor.WriteProfileImpl_of_open ⟨hf, hg⟩]; rfl

theorem resolve_BeginSessionImpl {w : World} (h : w.Inv) (name dir : String) :
    (Instrumentor.BeginSessionImpl name dir w).disk.resolve = w.disk.resolve := by
  have key : ∀ v : World, v.Inv → v.self.is_active_ = false →
      (Instrumentor.BeginSessionImpl name dir v).disk.resolve = v.disk.resolve := by
    intro v hv ha
    cases hc : v.disk.creatable (dir ++ name ++ ".json") with
    | false => rw [Instrumentor.BeginSessionImpl_of_failed name dir ha (hv.closed ha) hc]
    | true => rw [Instrumentor.BeginSessionImpl_of_closed name dir ha (hv.closed ha) hc]; rfl
  cases ha : w.self.is_active_ with
  | false => exact key w h ha
  | true =>
    rw [Instrumentor.BeginSessionImpl_of_active name dir ha,
      key _ (inv_EndSessionImpl h) (Instrumentor.EndSessionImpl_inactive w),
      Instrumentor.EndSessionImpl_resolve]

/-- No call changes which file a path names. -/
theorem resolve_apply {w : World} (h : w.Inv) (c : Call) :
    (c.apply w).disk.resolve = w.disk.resolve := by
  cases c with
  | EndSession => exact Instrumentor.EndSessionImpl_resolve _
  | WriteProfile e => exact resolve_WriteProfileImpl w e
  | BeginSession name dir => exact resolve_BeginSessionImpl h name dir

theorem resolve_run : ∀ (calls : List Call) {w : World}, w.Inv →
    (run w calls).disk.resolve = w.disk.resolve
  | [], _, _ => rfl
  | c :: cs, w, h => by
    have hstep : run w (c :: cs) = run (c.apply w) cs := rfl
    rw [hstep, resolve_run cs (inv_apply h c), resolve_apply h]

/-- `BeginSessionImpl` ends the session that is active, if any, and begins
the new one from there. -/
theorem Instrumentor.BeginSessionImpl_ended (w : World) (name dir : String) :
    Instrumentor.BeginSessionImpl name dir w =
      Instrumentor.BeginSessionImpl name dir (Instrumentor.EndSessionImpl w) := by
  cases ha : w.self.is_active_ with
  | false => rw [Instrumentor.EndSessionImpl_of_inactive ha]
  | true => exact Instrumentor.BeginSessionImpl_of_active name dir ha

/-- `BeginSessionImpl` in a state the interface reaches, when the file can be
created. -/
theorem Instrumentor.BeginSessionImpl_of_inv {w : World} (h : w.Inv) (name dir : String)
    (hc : w.disk.creatable (dir ++ name ++ ".json") = true) :
    Instrumentor.BeginSessionImpl name dir w =
      { self := { session_name_ := name,
                  profile_count_ := (Instrumentor.EndSessionImpl w).self.profile_count_,
                  is_active_ := true,
                  output_stream_ := { file := some (dir ++ name ++ ".json"), good := true } },
        disk := ((Instrumentor.EndSessionImpl w).disk.truncate (dir ++ name ++ ".json")).append
          (dir ++ name ++ ".json") header } := by
  rw [Instrumentor.BeginSessionImpl_ended]
  have hi := Instrumentor.EndSessionImpl_inactive w
  have hc2 : (Instrumentor.EndSessionImpl w).disk.creatable (dir ++ name ++ ".json") = true := by
    rw [Instrumentor.EndSessionImpl_creatable]; exact hc
  exact Instrumentor.BeginSessionImpl_of_closed name dir hi
    ((inv_EndSessionImpl h).closed hi) hc2

theorem int64_of_range {x : Int} (h0 : -9223372036854775808 ≤ x)
    (h1 : x ≤ 9223372036854775807) : int64 x = x := by
  unfold int64; omega

/-- The event object as one text around its five variable parts. -/
theorem eventObject_text (S : String) (e : ProfileResult) :
    eventObject S e =
      "\x7b\"cat\": \"function\", \"dur\": " ++ toString (int64 (e.end_ - e.start)) ++
        ", \"name\": \"" ++ Instrumentor.replaceQuotes e.name ++
        "\", \"ph\": \"X\", \"pid\": \"" ++ S ++
        "\", \"tid\": " ++ toString e.thread_id ++
        ", \"ts\": " ++ toString e.start ++ "\x7d" := by
  apply String.ext
  simp [eventObject, String.data_append]

/-! ## The claims -/

/-- C1: from the freshly constructed session, `BeginSession(name, dir)`, then
`WriteProfile` of the events of a list in order, then `EndSession()` leaves
at `dir ++ name ++ ".json"` exactly the header, the event objects joined by
`, ` and the footer.  The file must be one that can be created, and the list
has fewer than `2 ^ 31` events (the range of the `int` counter). -/
theorem c1_session_file (d : FileSystem) (name dir : String)
    (events : List ProfileResult)
    (hcreate : d.creatable (dir ++ name ++ ".json") = true)
    (hlen : events.length < 2147483648) :
    (run (fresh d)
        ([Call.BeginSession name dir] ++ events.map Call.WriteProfile ++
          [Call.EndSession])).disk.content (dir ++ name ++ ".json") =
      some ("\x7b \"otherData\": \x7b\x7d, \"traceEvents\": [" ++
        joinComma (events.map (eventObject name)) ++ "]\x7d") := by
  rw [run_append, run_append, run_writes]
  have hb : run (fresh d) [Call.BeginSession name dir] =
      Instrumentor.BeginSessionImpl name dir (fresh d) := rfl
  have he : ∀ v : World, run v [Call.EndSession] = Instrumentor.EndSessionImpl v :=
    fun _ => rfl
  rw [hb, he, Instrumentor.BeginSessionImpl_of_closed name dir rfl rfl hcreate]
  rw [writeAll_of_open events (p := dir ++ name ++ ".json") ⟨rfl, rfl⟩]
  rw [Instrumentor.EndSessionImpl_of_open (p := dir ++ name ++ ".json") rfl ⟨rfl, rfl⟩]
  simp only [FileSystem.append_append, FileSystem.content_truncate_append]
  have hw : written name (fresh d).self.profile_count_ events =
      joinComma (events.map (eventObject name)) := written_zero name events hlen
  rw [hw]
  simp only [header, footer, String.append_assoc]

/-- C1 at the demo of the specification: one event of a timer `work` in the
session `demo`. -/
theorem c1_session_file_demo :
    (run (fresh emptyDisk)
        [Call.BeginSession "demo" "./", Call.WriteProfile demoEvent,
          Call.EndSession]).disk.content "./demo.json" =
      some "\x7b \"otherData\": \x7b\x7d, \"traceEvents\": [\x7b\"cat\": \"function\", \"dur\": 1000, \"name\": \"work\", \"ph\": \"X\", \"pid\": \"demo\", \"tid\": 7, \"ts\": 5\x7d]\x7d" :=
  c1_session_file emptyDisk "demo" "./" [demoEvent] rfl (by decide)

/-- C3, at an input where the code departs from it: a `WriteProfile` made
while no session is active leaves the counter at one, `BeginSession` on the
inactive session does not reset it, and the first event of the new session is
written with `, ` before it, right after the `[` of the header. -/
theorem c3_first_event_after_inactive_write :
    (run (fresh emptyDisk)
        [Call.WriteProfile demoEvent, Call.BeginSession "demo" "./"]).disk.content
          "./demo.json" =
      some "\x7b \"otherData\": \x7b\x7d, \"traceEvents\": [" ∧
    (run (fresh emptyDisk)
        [Call.WriteProfile demoEvent, Call.BeginSession "demo" "./",
          Call.WriteProfile demoEvent]).disk.content "./demo.json" =
      some "\x7b \"otherData\": \x7b\x7d, \"traceEvents\": [, \x7b\"cat\": \"function\", \"dur\": 1000, \"name\": \"work\", \"ph\": \"X\", \"pid\": \"demo\", \"tid\": 7, \"ts\": 5\x7d" := by
  constructor <;> decide

set_option maxRecDepth 8000 in
/-- C4, where the code departs from it: `Stop` does not read `is_stop_`, so a
second `Stop()` on the same timer calls `WriteProfile` again; in an open
session `Stop(); Stop()` leaves two event objects in the file and a counter
of two, where a single `Stop()` leaves one. -/
theorem c4_second_stop_writes_again :
    (∀ (t : InstrumentorTimer) (w : World) (now1 now2 : Int) (tid1 tid2 : Nat),
      (InstrumentorTimer.Stop now2 tid2 (InstrumentorTimer.Stop now1 tid1 t w).1
          (InstrumentorTimer.Stop now1 tid1 t w).2).2 =
        Instrumentor.WriteProfileImpl
          { name := t.name_, start := InstrumentorTimer.toMicroseconds t.start_,
            end_ := InstrumentorTimer.toMicroseconds now2, thread_id := tid2 }
          (Instrumentor.WriteProfileImpl
            { name := t.name_, start := InstrumentorTimer.toMicroseconds t.start_,
              end_ := InstrumentorTimer.toMicroseconds now1, thread_id := tid1 } w)) ∧
    (InstrumentorTimer.Stop 1005000 7 (InstrumentorTimer.create "work" 5000)
        (Instrumentor.BeginSessionImpl "demo" "./" (fresh emptyDisk))).2.self.profile_count_
      = 1 ∧
    (InstrumentorTimer.Stop 2005000 7
        (InstrumentorTimer.Stop 1005000 7 (InstrumentorTimer.create "work" 5000)
          (Instrumentor.BeginSessionImpl "demo" "./" (fresh emptyDisk))).1
        (InstrumentorTimer.Stop 1005000 7 (InstrumentorTimer.create "work" 5000)
          (Instrumentor.BeginSessionImpl "demo" "./" (fresh emptyDisk))).2).2.self.profile_count_
      = 2 ∧
    (InstrumentorTimer.Stop 2005000 7
        (InstrumentorTimer.Stop 1005000 7 (InstrumentorTimer.create "work" 5000)
          (Instrumentor.BeginSessionImpl "demo" "./" (fresh emptyDisk))).1
        (InstrumentorTimer.Stop 1005000 7 (InstrumentorTimer.create "work" 5000)
          (Instrumentor.BeginSessionImpl "demo" "./" (fresh emptyDisk))).2).2.disk.content
          "./demo.json" =
      some "\x7b \"otherData\": \x7b\x7d, \"traceEvents\": [\x7b\"cat\": \"function\", \"dur\": 1000, \"name\": \"work\", \"ph\": \"X\", \"pid\": \"demo\", \"tid\": 7, \"ts\": 5\x7d, \x7b\"cat\": \"function\", \"dur\": 2000, \"name\": \"work\", \"ph\": \"X\", \"pid\": \"demo\", \"tid\": 7, \"ts\": 5\x7d" := by
  refine ⟨fun t w now1 now2 tid1 tid2 => ?_, by decide, by decide, by decide⟩
  simp only [InstrumentorTimer.Stop]

/-- C5: a timer that is never stopped explicitly submits exactly one event,
with its name, when it is destroyed; a timer stopped explicitly once submits
exactly one event, with its name, at that `Stop()`, and its destruction then
submits nothing (it leaves every state of the process as it is), so the
whole lifetime is one `WriteProfile` call and one increment of the
counter. -/
theorem c5_one_event_per_lifetime (name : String) (t0 now nowD : Int) (tid tidD : Nat)
    (w v : World) :
    (InstrumentorTimer.destroy nowD tidD (InstrumentorTimer.create name t0) w).2 =
      Instrumentor.WriteProfileImpl
        { name := name, start := InstrumentorTimer.toMicroseconds t0,
          end_ := InstrumentorTimer.toMicroseconds nowD, thread_id := tidD } w ∧
    (InstrumentorTimer.destroy nowD tidD
        (InstrumentorTimer.Stop now tid (InstrumentorTimer.create name t0) w).1
        (InstrumentorTimer.Stop now tid (InstrumentorTimer.create name t0) w).2).2 =
      Instrumentor.WriteProfileImpl
        { name := name, start := InstrumentorTimer.toMicroseconds t0,
          end_ := InstrumentorTimer.toMicroseconds now, thread_id := tid } w ∧
    (InstrumentorTimer.destroy nowD tidD
        (InstrumentorTimer.Stop now tid (InstrumentorTimer.create name t0) w).1 v).2 = v ∧
    (InstrumentorTimer.destroy nowD tidD
        (InstrumentorTimer.create name t0) w).2.self.profile_count_ =
      int32 (w.self.profile_count_ + 1) ∧
    (InstrumentorTimer.destroy nowD tidD
        (InstrumentorTimer.Stop now tid (InstrumentorTimer.create name t0) w).1
        (InstrumentorTimer.Stop now tid
          (InstrumentorTimer.create name t0) w).2).2.self.profile_count_ =
      int32 (w.self.profile_count_ + 1) := by
  have h1 : (InstrumentorTimer.destroy nowD tidD (InstrumentorTimer.create name t0) w).2 =
      Instrumentor.WriteProfileImpl
        { name := name, start := InstrumentorTimer.toMicroseconds t0,
          end_ := InstrumentorTimer.toMicroseconds nowD, thread_id := tidD } w := rfl
  have h2 : (InstrumentorTimer.destroy nowD tidD
        (InstrumentorTimer.Stop now tid (InstrumentorTimer.create name t0) w).1
        (InstrumentorTimer.Stop now tid (InstrumentorTimer.create name t0) w).2).2 =
      Instrumentor.WriteProfileImpl
        { name := name, start := InstrumentorTimer.toMicroseconds t0,
          end_ := InstrumentorTimer.toMicroseconds now, thread_id := tid } w := rfl
  refine ⟨h1, h2, rfl, ?_, ?_⟩
  · rw [h1, count_WriteProfileImpl]
  · rw [h2, count_WriteProfileImpl]

/-- C6, for a new path that names another file: in a state the interface
reaches where a session is active with its stream open on `pA`,
`BeginSession` of a session whose path names a file other than that of `pA`
(not only another spelling of the path) and can be created does what
`EndSession()` and then `BeginSession` from the inactive state do: the file
at `pA` gets the footer after its content and is closed, the new file holds
exactly the header, the counter is zero, and the events written afterwards
(fewer than `2 ^ 31`) go to the new file only, with the new name as `pid`. -/
theorem c6_begin_while_active (d : FileSystem) (calls : List Call) (w : World)
    (pA cA name dir : String) (events : List ProfileResult)
    (hw : w = run (fresh d) calls)
    (hactive : w.self.is_active_ = true)
    (hfile : w.self.output_stream_.file = some pA)
    (hcontent : w.disk.content pA = some cA)
    (hne : d.resolve (dir ++ name ++ ".json") ≠ d.resolve pA)
    (hcreate : d.creatable (dir ++ name ++ ".json") = true)
    (hlen : events.length < 2147483648) :
    Instrumentor.BeginSessionImpl name dir w =
      Instrumentor.BeginSessionImpl name dir (Instrumentor.EndSessionImpl w) ∧
    (Instrumentor.EndSessionImpl w).self.is_active_ = false ∧
    (Instrumentor.EndSessionImpl w).disk.content pA = some (cA ++ "]\x7d") ∧
    (Instrumentor.BeginSessionImpl name dir w).disk.content pA = some (cA ++ "]\x7d") ∧
    (Instrumentor.BeginSessionImpl name dir w).disk.content (dir ++ name ++ ".json") =
      some "\x7b \"otherData\": \x7b\x7d, \"traceEvents\": [" ∧
    (Instrumentor.BeginSessionImpl name dir w).self.profile_count_ = 0 ∧
    (Instrumentor.BeginSessionImpl name dir w).self.output_stream_.file =
      some (dir ++ name ++ ".json") ∧
    (writeAll (Instrumentor.BeginSessionImpl name dir w) events).disk.content pA =
      some (cA ++ "]\x7d") ∧
    (writeAll (Instrumentor.BeginSessionImpl name dir w) events).disk.content
        (dir ++ name ++ ".json") =
      some ("\x7b \"otherData\": \x7b\x7d, \"traceEvents\": [" ++
        joinComma (events.map (eventObject name))) := by
  have hinv : w.Inv := by rw [hw]; exact inv_run calls (inv_fresh d)
  have hcr : w.disk.creatable (dir ++ name ++ ".json") = true := by
    rw [hw, creatable_run calls (inv_fresh d)]; exact hcreate
  have hopen : w.OpenOn pA := ⟨hfile, hinv.good pA hfile⟩
  have hend := Instrumentor.EndSessionImpl_of_open hactive hopen
  have hbegin := Instrumentor.BeginSessionImpl_of_inv hinv name dir hcr
  have hres : (Instrumentor.EndSessionImpl w).disk.resolve = d.resolve := by
    rw [Instrumentor.EndSessionImpl_resolve, hw, resolve_run calls (inv_fresh d)]; rfl
  have hne2 : (Instrumentor.EndSessionImpl w).disk.resolve pA ≠
      (Instrumentor.EndSessionImpl w).disk.resolve (dir ++ name ++ ".json") := by
    rw [hres]; exact fun h => hne h.symm
  have hA : (Instrumentor.EndSessionImpl w).disk.content pA = some (cA ++ "]\x7d") := by
    rw [hend]
    simp only [FileSystem.content_append_same, hcontent, Option.map_some', footer]
  have hcount : (Instrumentor.EndSessionImpl w).self.profile_count_ = 0 := by rw [hend]
  refine ⟨Instrumentor.BeginSessionImpl_ended w name dir,
    Instrumentor.EndSessionImpl_inactive w, hA, ?_, ?_, ?_, ?_, ?_, ?_⟩
  · rw [hbegin]
    simp only [FileSystem.content_truncate_append_of_ne _ _ hne2, hA]
  · rw [hbegin]
    simp only [FileSystem.content_truncate_append, header]
  · rw [hbegin]; exact hcount
  · rw [hbegin]
  · rw [hbegin, writeAll_of_open events (p := dir ++ name ++ ".json") ⟨rfl, rfl⟩]
    simp only [FileSystem.append_append, FileSystem.content_truncate_append_of_ne _ _ hne2, hA]
  · rw [hbegin, writeAll_of_open events (p := dir ++ name ++ ".json") ⟨rfl, rfl⟩]
    simp only [FileSystem.append_append, FileSystem.content_truncate_append, hcount,
      written_zero name events hlen, header]

set_option maxRecDepth 8000 in
/-- C6 at an example, on a disk where a leading `./` does not change the
file: `BeginSession("b")` while the session `a` is active with one event
written, and one event written afterwards. -/
theorem c6_begin_while_active_example :
    (writeAll (Instrumentor.BeginSessionImpl "b" "./"
        (run (fresh aliasDisk)
          [Call.BeginSession "a" "./", Call.WriteProfile demoEvent]))
        [demoEvent]).disk.content "./a.json" =
      some "\x7b \"otherData\": \x7b\x7d, \"traceEvents\": [\x7b\"cat\": \"function\", \"dur\": 1000, \"name\": \"work\", \"ph\": \"X\", \"pid\": \"a\", \"tid\": 7, \"ts\": 5\x7d]\x7d" ∧
    (writeAll (Instrumentor.BeginSessionImpl "b" "./"
        (run (fresh aliasDisk)
          [Call.BeginSession "a" "./", Call.WriteProfile demoEvent]))
        [demoEvent]).disk.content "./b.json" =
      some "\x7b \"otherData\": \x7b\x7d, \"traceEvents\": [\x7b\"cat\": \"function\", \"dur\": 1000, \"name\": \"work\", \"ph\": \"X\", \"pid\": \"b\", \"tid\": 7, \"ts\": 5\x7d" :=
  (c6_begin_while_active aliasDisk
    [Call.BeginSession "a" "./", Call.WriteProfile demoEvent] _
    "./a.json"
    "\x7b \"otherData\": \x7b\x7d, \"traceEvents\": [\x7b\"cat\": \"function\", \"dur\": 1000, \"name\": \"work\", \"ph\": \"X\", \"pid\": \"a\", \"tid\": 7, \"ts\": 5\x7d"
    "b" "./" [demoEvent] rfl (by decide) (by decide) (by decide) (by decide) rfl
    (by decide)).2.2.2.2.2.2.2

set_option maxRecDepth 8000 in
/-- C6 as the specification words it fails for a path that differs from that
of the active session only in its spelling: on a disk where `./demo.json` and
`demo.json` are one file, with the session `demo` of directory `./` active
and one event written, `BeginSession("demo", "")` opens a path that differs
from `./demo.json`, and the file of the active session does not keep its
content with the footer: the second opening empties it and it holds the
header alone. -/
theorem c6_other_spelling_of_path_fails :
    "" ++ "demo" ++ ".json" ≠ "./" ++ "demo" ++ ".json" ∧
    (run (fresh aliasDisk)
      [Call.BeginSession "demo" "./", Call.WriteProfile demoEvent]).self.is_active_ = true ∧
    (run (fresh aliasDisk)
      [Call.BeginSession "demo" "./",
        Call.WriteProfile demoEvent]).self.output_stream_.file = some "./demo.json" ∧
    (run (fresh aliasDisk)
      [Call.BeginSession "demo" "./",
        Call.WriteProfile demoEvent]).disk.content "./demo.json" =
      some "\x7b \"otherData\": \x7b\x7d, \"traceEvents\": [\x7b\"cat\": \"function\", \"dur\": 1000, \"name\": \"work\", \"ph\": \"X\", \"pid\": \"demo\", \"tid\": 7, \"ts\": 5\x7d" ∧
    (Instrumentor.BeginSessionImpl "demo" ""
      (run (fresh aliasDisk)
        [Call.BeginSession "demo" "./",
          Call.WriteProfile demoEvent])).disk.content "./demo.json" =
      some "\x7b \"otherData\": \x7b\x7d, \"traceEvents\": [" ∧
    (Instrumentor.BeginSessionImpl "demo" ""
      (run (fresh aliasDisk)
        [Call.BeginSession "demo" "./",
          Call.WriteProfile demoEvent])).disk.content "./demo.json" ≠
      some "\x7b \"otherData\": \x7b\x7d, \"traceEvents\": [\x7b\"cat\": \"function\", \"dur\": 1000, \"name\": \"work\", \"ph\": \"X\", \"pid\": \"demo\", \"tid\": 7, \"ts\": 5\x7d]\x7d" := by
  refine ⟨by decide, by decide, by decide, by decide, by decide, by decide⟩

/-- C7: the name `WriteProfile` emits has the length of the name it is given,
a single quote wherever that name has a double quote and the same character
everywhere else, so it holds no double quote; `work "A"` becomes `work 'A'`.
On an open stream the emitted name stands between `"name": "` and `", ` in
the text appended to the file. -/
theorem c7_name_quotes (w : World) (p : String) (e : ProfileResult)
    (hopen : w.OpenOn p) :
    (Instrumentor.replaceQuotes e.name).length = e.name.length ∧
    (∀ (i : Nat) (c : Char), e.name.data[i]? = some c →
      (c = '"' → (Instrumentor.replaceQuotes e.name).data[i]? = some '\'') ∧
      (c ≠ '"' → (Instrumentor.replaceQuotes e.name).data[i]? = some c)) ∧
    '"' ∉ (Instrumentor.replaceQuotes e.name).data ∧
    Instrumentor.replaceQuotes "work \"A\"" = "work 'A'" ∧
    (Instrumentor.WriteProfileImpl e w).disk.content p =
      (w.disk.content p).map (fun c => c ++
        (separator w.self.profile_count_ ++
          "\x7b\"cat\": \"function\", \"dur\": " ++ toString (int64 (e.end_ - e.start)) ++
          ", \"name\": \"" ++ Instrumentor.replaceQuotes e.name ++
          "\", \"ph\": \"X\", \"pid\": \"" ++ w.self.session_name_ ++
          "\", \"tid\": " ++ toString e.thread_id ++
          ", \"ts\": " ++ toString e.start ++ "\x7d")) := by
  have hdata : (Instrumentor.replaceQuotes e.name).data =
      e.name.data.map (fun c => if c = '"' then '\'' else c) := rfl
  refine ⟨?_, ?_, ?_, by decide, ?_⟩
  · show (Instrumentor.replaceQuotes e.name).data.length = e.name.data.length
    rw [hdata, List.length_map]
  · intro i c hc
    rw [hdata, List.getElem?_map, hc, Option.map_some']
    exact ⟨fun h => by rw [if_pos h], fun h => by rw [if_neg h]⟩
  · rw [hdata, List.mem_map]
    rintro ⟨c, _, hq⟩
    by_cases h : c = '"'
    · rw [if_pos h] at hq; exact absurd hq (by decide)
    · rw [if_neg h] at hq; exact h hq
  · rw [Instrumentor.WriteProfileImpl_of_open hopen, FileSystem.content_append_same,
      eventObject_text]
    simp only [String.append_assoc]

/-- C7 at the example of the specification: the event named `work "A"`,
written first in the session `demo`. -/
theorem c7_name_quotes_example :
    (Instrumentor.WriteProfileImpl quotedEvent
        (Instrumentor.BeginSessionImpl "demo" "./" (fresh emptyDisk))).disk.content
        "./demo.json" =
      some "\x7b \"otherData\": \x7b\x7d, \"traceEvents\": [\x7b\"cat\": \"function\", \"dur\": 1000, \"name\": \"work 'A'\", \"ph\": \"X\", \"pid\": \"demo\", \"tid\": 7, \"ts\": 5\x7d" :=
  (c7_name_quotes (Instrumentor.BeginSessionImpl "demo" "./" (fresh emptyDisk))
    "./demo.json" quotedEvent ⟨rfl, rfl⟩).2.2.2.2

/-- C8: `EndSession()` on an inactive session changes nothing (name, counter,
flag, stream and disk are the same); for every state a second `EndSession()`
changes nothing after the first; and after `EndSession(); EndSession()` on an
active session with an open stream the file holds its content and the footer
once. -/
theorem c8_end_session_twice (w u v : World) (p c : String)
    (hw : w.self.is_active_ = false)
    (hv : v.self.is_active_ = true) (hopen : v.OpenOn p)
    (hc : v.disk.content p = some c) :
    Instrumentor.EndSessionImpl w = w ∧
    Instrumentor.EndSessionImpl (Instrumentor.EndSessionImpl u) =
      Instrumentor.EndSessionImpl u ∧
    (Instrumentor.EndSessionImpl v).disk.content p = some (c ++ "]\x7d") ∧
    (Instrumentor.EndSessionImpl (Instrumentor.EndSessionImpl v)).disk.content p =
      some (c ++ "]\x7d") := by
  have hidem : ∀ x : World, Instrumentor.EndSessionImpl (Instrumentor.EndSessionImpl x) =
      Instrumentor.EndSessionImpl x := fun x =>
    Instrumentor.EndSessionImpl_of_inactive (Instrumentor.EndSessionImpl_inactive x)
  have h1 : (Instrumentor.EndSessionImpl v).disk.content p = some (c ++ "]\x7d") := by
    rw [Instrumentor.EndSessionImpl_of_open hv hopen]
    simp only [FileSystem.content_append_same, hc, Option.map_some', footer]
  exact ⟨Instrumentor.EndSessionImpl_of_inactive hw, hidem u, h1, by rw [hidem v]; exact h1⟩

/-- C8 at an example: the fresh session is inactive, the session `demo` is
active with its header written. -/
theorem c8_end_session_twice_example :
    Instrumentor.EndSessionImpl (fresh emptyDisk) = fresh emptyDisk ∧
    Instrumentor.EndSessionImpl (Instrumentor.EndSessionImpl
        (Instrumentor.BeginSessionImpl "demo" "./" (fresh emptyDisk))) =
      Instrumentor.EndSessionImpl
        (Instrumentor.BeginSessionImpl "demo" "./" (fresh emptyDisk)) ∧
    (Instrumentor.EndSessionImpl
        (Instrumentor.BeginSessionImpl "demo" "./" (fresh emptyDisk))).disk.content
        "./demo.json" =
      some "\x7b \"otherData\": \x7b\x7d, \"traceEvents\": []\x7d" ∧
    (Instrumentor.EndSessionImpl (Instrumentor.EndSessionImpl
        (Instrumentor.BeginSessionImpl "demo" "./" (fresh emptyDisk)))).disk.content
        "./demo.json" =
      some "\x7b \"otherData\": \x7b\x7d, \"traceEvents\": []\x7d" :=
  c8_end_session_twice (fresh emptyDisk)
    (Instrumentor.BeginSessionImpl "demo" "./" (fresh emptyDisk))
    (Instrumentor.BeginSessionImpl "demo" "./" (fresh emptyDisk))
    "./demo.json" "\x7b \"otherData\": \x7b\x7d, \"traceEvents\": ["
    rfl rfl ⟨rfl, rfl⟩ (by decide)

/-- C9: in every state the interface reaches in which no session is active
(none was begun, or `EndSession` closed the stream), `WriteProfile` of an
event adds one to the counter (below the largest `int`), leaves the flag and
the session name as they are, and changes no file: the disk is the same. -/
theorem c9_write_while_inactive (d : FileSystem) (calls : List Call) (w : World)
    (e : ProfileResult)
    (hw : w = run (fresh d) calls)
    (hinactive : w.self.is_active_ = false)
    (hcount : w.self.profile_count_ < 2147483647) :
    (Instrumentor.WriteProfileImpl e w).self.profile_count_ = w.self.profile_count_ + 1 ∧
    (Instrumentor.WriteProfileImpl e w).self.is_active_ = false ∧
    (Instrumentor.WriteProfileImpl e w).self.session_name_ = w.self.session_name_ ∧
    (Instrumentor.WriteProfileImpl e w).disk = w.disk := by
  have hinv : w.Inv := by rw [hw]; exact inv_run calls (inv_fresh d)
  rw [Instrumentor.WriteProfileImpl_of_closed (hinv.closed hinactive)]
  exact ⟨int32_succ (by have := hinv.count.1; omega) hcount, hinactive, rfl, rfl⟩

set_option maxRecDepth 8000 in
/-- C9 at an example: a `WriteProfile` after the session `demo` was ended
leaves the finished file as it was. -/
theorem c9_write_while_inactive_example :
    (Instrumentor.WriteProfileImpl demoEvent
        (run (fresh emptyDisk)
          [Call.BeginSession "demo" "./", Call.WriteProfile demoEvent,
            Call.EndSession])).self.profile_count_ = 1 ∧
    (Instrumentor.WriteProfileImpl demoEvent
        (run (fresh emptyDisk)
          [Call.BeginSession "demo" "./", Call.WriteProfile demoEvent,
            Call.EndSession])).disk.content "./demo.json" =
      some "\x7b \"otherData\": \x7b\x7d, \"traceEvents\": [\x7b\"cat\": \"function\", \"dur\": 1000, \"name\": \"work\", \"ph\": \"X\", \"pid\": \"demo\", \"tid\": 7, \"ts\": 5\x7d]\x7d" :=
  ⟨(c9_write_while_inactive emptyDisk
      [Call.BeginSession "demo" "./", Call.WriteProfile demoEvent, Call.EndSession] _
      demoEvent rfl (by decide) (by decide)).1,
    (c9_write_while_inactive emptyDisk
      [Call.BeginSession "demo" "./", Call.WriteProfile demoEvent, Call.EndSession] _
      demoEvent rfl (by decide) (by decide)).2.2.2 ▸ by decide⟩

theorem toMicroseconds_of_nonneg {t : Int} (h : 0 ≤ t) :
    InstrumentorTimer.toMicroseconds t = t / 1000 := by
  unfold InstrumentorTimer.toMicroseconds
  exact Int.tdiv_eq_ediv h (by decide)

/-- C10: in a session begun by `BeginSession(S, dir)` whose file could be
created, a timer constructed at the clock reading `r0` and stopped at the
reading `r1`, with `0 ≤ r0 ≤ r1` and `r1` a 64 bit reading, submits the event
whose `start` and `end` are the readings in whole microseconds; these keep
the order of the readings, the 64 bit subtraction `end - start` does not
overflow, and the object that `Stop` makes `WriteProfile` append to the file
has as `dur` the decimal text of `end - start ≥ 0` and as `ts` the decimal
text of `start ≥ 0`. -/
theorem c10_duration (d : FileSystem) (calls : List Call) (w : World)
    (name S dir : String) (before : List ProfileResult) (r0 r1 : Int) (tid : Nat)
    (hw : w = run (fresh d)
      (calls ++ [Call.BeginSession S dir] ++ before.map Call.WriteProfile))
    (hcreate : d.creatable (dir ++ S ++ ".json") = true)
    (h0 : 0 ≤ r0) (h01 : r0 ≤ r1) (hmax : r1 ≤ 9223372036854775807) :
    (InstrumentorTimer.Stop r1 tid (InstrumentorTimer.create name r0) w).2 =
      Instrumentor.WriteProfileImpl
        { name := name, start := InstrumentorTimer.toMicroseconds r0,
          end_ := InstrumentorTimer.toMicroseconds r1, thread_id := tid } w ∧
    InstrumentorTimer.toMicroseconds r0 = r0 / 1000 ∧
    InstrumentorTimer.toMicroseconds r1 = r1 / 1000 ∧
    0 ≤ InstrumentorTimer.toMicroseconds r0 ∧
    InstrumentorTimer.toMicroseconds r0 ≤ InstrumentorTimer.toMicroseconds r1 ∧
    int64 (InstrumentorTimer.toMicroseconds r1 - InstrumentorTimer.toMicroseconds r0) =
      InstrumentorTimer.toMicroseconds r1 - InstrumentorTimer.toMicroseconds r0 ∧
    0 ≤ InstrumentorTimer.toMicroseconds r1 - InstrumentorTimer.toMicroseconds r0 ∧
    (∃ c : String, w.disk.content (dir ++ S ++ ".json") = some c) ∧
    (InstrumentorTimer.Stop r1 tid (InstrumentorTimer.create name r0) w).2.disk.content
        (dir ++ S ++ ".json") =
      (w.disk.content (dir ++ S ++ ".json")).map (fun c => c ++
        (separator w.self.profile_count_ ++
          "\x7b\"cat\": \"function\", \"dur\": " ++
          toString (InstrumentorTimer.toMicroseconds r1 -
            InstrumentorTimer.toMicroseconds r0) ++
          ", \"name\": \"" ++ Instrumentor.replaceQuotes name ++
          "\", \"ph\": \"X\", \"pid\": \"" ++ S ++
          "\", \"tid\": " ++ toString tid ++
          ", \"ts\": " ++ toString (InstrumentorTimer.toMicroseconds r0) ++ "\x7d")) := by
  have e0 := toMicroseconds_of_nonneg h0
  have e1 := toMicroseconds_of_nonneg (le_trans h0 h01)
  have hsub : int64 (InstrumentorTimer.toMicroseconds r1 -
      InstrumentorTimer.toMicroseconds r0) =
      InstrumentorTimer.toMicroseconds r1 - InstrumentorTimer.toMicroseconds r0 := by
    rw [e0, e1]; exact int64_of_range (by omega) (by omega)
  have hinv := inv_run calls (inv_fresh d)
  have hcr : (run (fresh d) calls).disk.creatable (dir ++ S ++ ".json") = true := by
    rw [creatable_run calls (inv_fresh d)]; exact hcreate
  have hb : ∀ v : World, run v [Call.BeginSession S dir] =
      Instrumentor.BeginSessionImpl S dir v := fun _ => rfl
  rw [run_append, run_append, run_writes, hb,
    Instrumentor.BeginSessionImpl_of_inv hinv S dir hcr,
    writeAll_of_open before (p := dir ++ S ++ ".json") ⟨rfl, rfl⟩] at hw
  have hopen : w.OpenOn (dir ++ S ++ ".json") := by rw [hw]; exact ⟨rfl, rfl⟩
  have hname : w.self.session_name_ = S := by rw [hw]
  have hstop : (InstrumentorTimer.Stop r1 tid (InstrumentorTimer.create name r0) w).2 =
      Instrumentor.WriteProfileImpl
        { name := name, start := InstrumentorTimer.toMicroseconds r0,
          end_ := InstrumentorTimer.toMicroseconds r1, thread_id := tid } w := rfl
  refine ⟨hstop, e0, e1, by rw [e0]; omega, by rw [e0, e1]; omega, hsub,
    by rw [e0, e1]; omega, ?_, ?_⟩
  · rw [hw]
    simp only [FileSystem.append_append, FileSystem.content_truncate_append]
    exact ⟨_, rfl⟩
  · rw [hstop, Instrumentor.WriteProfileImpl_of_open hopen, FileSystem.content_append_same,
      eventObject_text, hsub, hname]
    simp only [String.append_assoc]

set_option maxRecDepth 8000 in
/-- C10 at an example: in the session `demo`, a timer `work` constructed at
the reading 5999 ns and stopped at 1005001 ns leaves in the file an object
with `dur` 1000 and `ts` 5. -/
theorem c10_duration_example :
    (InstrumentorTimer.Stop 1005001 7 (InstrumentorTimer.create "work" 5999)
        (run (fresh emptyDisk) [Call.BeginSession "demo" "./"])).2.disk.content
        "./demo.json" =
      some "\x7b \"otherData\": \x7b\x7d, \"traceEvents\": [\x7b\"cat\": \"function\", \"dur\": 1000, \"name\": \"work\", \"ph\": \"X\", \"pid\": \"demo\", \"tid\": 7, \"ts\": 5\x7d" :=
  ((c10_duration emptyDisk [] _ "work" "demo" "./" [] 5999 1005001 7 rfl rfl
    (by decide) (by decide) (by decide)).2.2.2.2.2.2.2.2).trans (by decide)

/-! ## The name, the flag and the counter in every state -/

theorem Instrumentor.EndSessionImpl_control (w : World) :
    (Instrumentor.EndSessionImpl w).self.session_name_ = w.self.session_name_ ∧
    (Instrumentor.EndSessionImpl w).self.is_active_ = false ∧
    (Instrumentor.EndSessionImpl w).self.profile_count_ =
      (if w.self.is_active_ then 0 else w.self.profile_count_) := by
  rcases w with ⟨⟨n, c, a, ⟨f, g⟩⟩, d⟩
  cases a <;> cases f <;> cases g <;>
    simp [Instrumentor.EndSessionImpl, Instrumentor.WriteFooter, World.put, World.flush,
      World.closeStream]

theorem Instrumentor.WriteProfileImpl_control (w : World) (e : ProfileResult) :
    (Instrumentor.WriteProfileImpl e w).self.session_name_ = w.self.session_name_ ∧
    (Instrumentor.WriteProfileImpl e w).self.is_active_ = w.self.is_active_ ∧
    (Instrumentor.WriteProfileImpl e w).self.profile_count_ =
      int32 (w.self.profile_count_ + 1) := by
  cases hf : w.self.output_stream_.file with
  | none => rw [Instrumentor.WriteProfileImpl_of_closed hf]; exact ⟨rfl, rfl, rfl⟩
  | some p =>
    cases hg : w.self.output_stream_.good with
    | false => rw [Instrumentor.WriteProfileImpl_of_bad hg]; exact ⟨rfl, rfl, rfl⟩
    | true => rw [Instrumentor.WriteProfileImpl_of_open ⟨hf, hg⟩]; exact ⟨rfl, rfl, rfl⟩

/-- `BeginSessionImpl` on an inactive session, whatever the stream does. -/
theorem Instrumentor.BeginSessionImpl_control_of_inactive (w : World) (name dir : String)
    (ha : w.self.is_active_ = false) :
    (Instrumentor.BeginSessionImpl name dir w).self.session_name_ = name ∧
    (Instrumentor.BeginSessionImpl name dir w).self.is_active_ = true ∧
    (Instrumentor.BeginSessionImpl name dir w).self.profile_count_ =
      w.self.profile_count_ := by
  rcases w with ⟨⟨n, c, a, ⟨f, g⟩⟩, d⟩
  simp only at ha
  subst ha
  cases hc : d.creatable (dir ++ name ++ ".json") <;> cases f <;> cases g <;>
    simp [Instrumentor.BeginSessionImpl, Instrumentor.WriteHeader, World.put, World.flush,
      World.openStream, hc]

theorem Instrumentor.BeginSessionImpl_control (w : World) (name dir : String) :
    (Instrumentor.BeginSessionImpl name dir w).self.session_name_ = name ∧
    (Instrumentor.BeginSessionImpl name dir w).self.is_active_ = true ∧
    (Instrumentor.BeginSessionImpl name dir w).self.profile_count_ =
      (if w.self.is_active_ then 0 else w.self.profile_count_) := by
  rw [Instrumentor.BeginSessionImpl_ended]
  have h := Instrumentor.BeginSessionImpl_control_of_inactive
    (Instrumentor.EndSessionImpl w) name dir (Instrumentor.EndSessionImpl_inactive w)
  rw [(Instrumentor.EndSessionImpl_control w).2.2] at h
  exact h

/-- A call changes the name, the flag and the counter as a function of these
three alone: the stream and the disk have no part in it. -/
theorem control_apply {w v : World} (h : w.control = v.control) (c : Call) :
    (c.apply w).control = (c.apply v).control := by
  simp only [World.control, Prod.mk.injEq] at h
  obtain ⟨hn, ha, hc⟩ := h
  cases c with
  | BeginSession name dir =>
    have hw := Instrumentor.BeginSessionImpl_control w name dir
    have hv := Instrumentor.BeginSessionImpl_control v name dir
    simp only [World.control, Call.apply, hw.1, hw.2.1, hw.2.2, hv.1, hv.2.1, hv.2.2, ha, hc]
  | EndSession =>
    have hw := Instrumentor.EndSessionImpl_control w
    have hv := Instrumentor.EndSessionImpl_control v
    simp only [World.control, Call.apply, hw.1, hw.2.1, hw.2.2, hv.1, hv.2.1, hv.2.2, hn, ha, hc]
  | WriteProfile e =>
    have hw := Instrumentor.WriteProfileImpl_control w e
    have hv := Instrumentor.WriteProfileImpl_control v e
    simp only [World.control, Call.apply, hw.1, hw.2.1, hw.2.2, hv.1, hv.2.1, hv.2.2, hn, ha, hc]

theorem control_run : ∀ (calls : List Call) {w v : World}, w.control = v.control →
    (run w calls).control = (run v calls).control
  | [], _, _, h => h
  | c :: cs, _, _, h => control_run cs (control_apply h c)

theorem control_fresh (d d2 : FileSystem) : (fresh d).control = (fresh d2).control := rfl

/-- On a closed stream a list of events leaves the disk as it is. -/
theorem writeAll_of_closed : ∀ (events : List ProfileResult) {w : World},
    w.self.output_stream_.file = none →
    (writeAll w events).disk = w.disk ∧
      (writeAll w events).self.output_stream_.file = none
  | [], _, h => ⟨rfl, h⟩
  | e :: es, w, h => by
    have hstep : writeAll w (e :: es) = writeAll (Instrumentor.WriteProfileImpl e w) es := rfl
    have h1 : (Instrumentor.WriteProfileImpl e w).self.output_stream_.file = none := by
      rw [Instrumentor.WriteProfileImpl_of_closed h]
    have h2 : (Instrumentor.WriteProfileImpl e w).disk = w.disk := by
      rw [Instrumentor.WriteProfileImpl_of_closed h]
    have ih := writeAll_of_closed es h1
    rw [hstep]
    exact ⟨ih.1.trans h2, ih.2⟩

/-- A list of events leaves the session name and the flag as they are. -/
theorem writeAll_frame : ∀ (events : List ProfileResult) (w : World),
    (writeAll w events).self.session_name_ = w.self.session_name_ ∧
      (writeAll w events).self.is_active_ = w.self.is_active_
  | [], _ => ⟨rfl, rfl⟩
  | e :: es, w => by
    have hstep : writeAll w (e :: es) = writeAll (Instrumentor.WriteProfileImpl e w) es := rfl
    have ih := writeAll_frame es (Instrumentor.WriteProfileImpl e w)
    have h1 := Instrumentor.WriteProfileImpl_control w e
    rw [hstep]
    exact ⟨ih.1.trans h1.1, ih.2.trans h1.2.1⟩

/-- C11, with the header as the code writes it: in a state the interface
reaches in which no session is active, `BeginSession(name, output_dir)` on a
path that can be created sets the session name to `name`, opens the stream on
`output_dir ++ name ++ ".json"`, leaves as the whole content of that file the
header `{ "otherData": {}, "traceEvents": [` (a blank follows the first
brace), marks the session active, keeps the counter and leaves every other
file as it is. -/
theorem c11_begin_from_inactive (d : FileSystem) (calls : List Call) (w : World)
    (name dir q : String)
    (hw : w = run (fresh d) calls)
    (hinactive : w.self.is_active_ = false)
    (hcreate : d.creatable (dir ++ name ++ ".json") = true)
    (hq : d.resolve q ≠ d.resolve (dir ++ name ++ ".json")) :
    (Instrumentor.BeginSessionImpl name dir w).self.session_name_ = name ∧
    (Instrumentor.BeginSessionImpl name dir w).self.output_stream_ =
      { file := some (dir ++ name ++ ".json"), good := true } ∧
    (Instrumentor.BeginSessionImpl name dir w).disk.content (dir ++ name ++ ".json") =
      some "\x7b \"otherData\": \x7b\x7d, \"traceEvents\": [" ∧
    (Instrumentor.BeginSessionImpl name dir w).self.is_active_ = true ∧
    (Instrumentor.BeginSessionImpl name dir w).self.profile_count_ =
      w.self.profile_count_ ∧
    (Instrumentor.BeginSessionImpl name dir w).disk.content q = w.disk.content q := by
  have hinv : w.Inv := by rw [hw]; exact inv_run calls (inv_fresh d)
  have hcr : w.disk.creatable (dir ++ name ++ ".json") = true := by
    rw [hw, creatable_run calls (inv_fresh d)]; exact hcreate
  have hq2 : w.disk.resolve q ≠ w.disk.resolve (dir ++ name ++ ".json") := by
    rw [hw, resolve_run calls (inv_fresh d)]; exact hq
  rw [Instrumentor.BeginSessionImpl_of_closed name dir hinactive (hinv.closed hinactive) hcr]
  refine ⟨rfl, rfl, ?_, rfl, rfl, ?_⟩
  · simp only [FileSystem.content_truncate_append, header]
  · simp only [FileSystem.content_truncate_append_of_ne _ _ hq2]

/-- C11 at the demo: `BeginSession("demo")` from the freshly constructed
session. -/
theorem c11_begin_from_inactive_demo :
    (Instrumentor.BeginSessionImpl "demo" "./" (fresh emptyDisk)).self.session_name_ =
      "demo" ∧
    (Instrumentor.BeginSessionImpl "demo" "./" (fresh emptyDisk)).self.output_stream_ =
      { file := some "./demo.json", good := true } ∧
    (Instrumentor.BeginSessionImpl "demo" "./" (fresh emptyDisk)).disk.content
        "./demo.json" =
      some "\x7b \"otherData\": \x7b\x7d, \"traceEvents\": [" ∧
    (Instrumentor.BeginSessionImpl "demo" "./" (fresh emptyDisk)).self.is_active_ = true ∧
    (Instrumentor.BeginSessionImpl "demo" "./" (fresh emptyDisk)).self.profile_count_ = 0 ∧
    (Instrumentor.BeginSessionImpl "demo" "./" (fresh emptyDisk)).disk.content
        "./other.json" = none :=
  c11_begin_from_inactive emptyDisk [] _ "demo" "./" "./other.json" rfl rfl rfl (by decide)

/-- C11 as the specification words it fails: the content that
`BeginSession("demo")` leaves in `./demo.json` is not the text
`{"otherData": {}, "traceEvents": [` with no blank after the first brace. -/
theorem c11_header_without_blank_fails :
    (Instrumentor.BeginSessionImpl "demo" "./" (fresh emptyDisk)).disk.content
        "./demo.json" ≠
      some "\x7b\"otherData\": \x7b\x7d, \"traceEvents\": [" := by
  decide

/-- C12: in a state the interface reaches, `BeginSession` on a path that
cannot be created still sets the session name and marks the session active,
and leaves the disk as the end of the earlier session left it; the events
written afterwards and the `EndSession` of that session change no file; and
the name, the flag and the counter are after every one of these calls what
they are after the same calls on a disk where the file could be created. -/
theorem c12_open_failure (d d2 : FileSystem) (calls : List Call) (w w2 : World)
    (name dir : String) (events : List ProfileResult)
    (hw : w = run (fresh d) calls)
    (hw2 : w2 = run (fresh d2) calls)
    (hfail : d.creatable (dir ++ name ++ ".json") = false)
    (hopen : d2.creatable (dir ++ name ++ ".json") = true) :
    (Instrumentor.BeginSessionImpl name dir w).self.session_name_ = name ∧
    (Instrumentor.BeginSessionImpl name dir w).self.is_active_ = true ∧
    (Instrumentor.BeginSessionImpl name dir w).disk = (Instrumentor.EndSessionImpl w).disk ∧
    (writeAll (Instrumentor.BeginSessionImpl name dir w) events).disk =
      (Instrumentor.BeginSessionImpl name dir w).disk ∧
    (Instrumentor.EndSessionImpl
        (writeAll (Instrumentor.BeginSessionImpl name dir w) events)).disk =
      (Instrumentor.BeginSessionImpl name dir w).disk ∧
    (Instrumentor.BeginSessionImpl name dir w2).self.output_stream_.file =
      some (dir ++ name ++ ".json") ∧
    (writeAll (Instrumentor.BeginSessionImpl name dir w) events).control =
      (writeAll (Instrumentor.BeginSessionImpl name dir w2) events).control ∧
    (Instrumentor.EndSessionImpl
        (writeAll (Instrumentor.BeginSessionImpl name dir w) events)).control =
      (Instrumentor.EndSessionImpl
        (writeAll (Instrumentor.BeginSessionImpl name dir w2) events)).control := by
  have hinv : w.Inv := by rw [hw]; exact inv_run calls (inv_fresh d)
  have hinv2 : w2.Inv := by rw [hw2]; exact inv_run calls (inv_fresh d2)
  have hcr2 : w2.disk.creatable (dir ++ name ++ ".json") = true := by
    rw [hw2, creatable_run calls (inv_fresh d2)]; exact hopen
  have hi := Instrumentor.EndSessionImpl_inactive w
  have hcr : (Instrumentor.EndSessionImpl w).disk.creatable (dir ++ name ++ ".json") =
      false := by
    rw [Instrumentor.EndSessionImpl_creatable, hw, creatable_run calls (inv_fresh d)]
    exact hfail
  have hb : Instrumentor.BeginSessionImpl name dir w =
      { self := { session_name_ := name,
                  profile_count_ := (Instrumentor.EndSessionImpl w).self.profile_count_,
                  is_active_ := true,
                  output_stream_ := { file := none, good := false } },
        disk := (Instrumentor.EndSessionImpl w).disk } := by
    rw [Instrumentor.BeginSessionImpl_ended]
    exact Instrumentor.BeginSessionImpl_of_failed name dir hi
      ((inv_EndSessionImpl hinv).closed hi) hcr
  have hclosed : (Instrumentor.BeginSessionImpl name dir w).self.output_stream_.file =
      none := by rw [hb]
  have hwrites := writeAll_of_closed events hclosed
  have hactive : (writeAll (Instrumentor.BeginSessionImpl name dir w) events).self.is_active_
      = true := by
    rw [(writeAll_frame events _).2, hb]
  have hcw : w.control = w2.control := by
    rw [hw, hw2]; exact control_run calls (control_fresh d d2)
  have hcb : (Instrumentor.BeginSessionImpl name dir w).control =
      (Instrumentor.BeginSessionImpl name dir w2).control :=
    control_apply hcw (Call.BeginSession name dir)
  have hcall : (writeAll (Instrumentor.BeginSessionImpl name dir w) events).control =
      (writeAll (Instrumentor.BeginSessionImpl name dir w2) events).control := by
    rw [← run_writes, ← run_writes]
    exact control_run _ hcb
  refine ⟨by rw [hb], by rw [hb], by rw [hb], hwrites.1, ?_, ?_, hcall,
    control_apply hcall Call.EndSession⟩
  · rw [Instrumentor.EndSessionImpl_of_closed hactive hwrites.2]
    exact hwrites.1
  · rw [Instrumentor.BeginSessionImpl_of_inv hinv2 name dir hcr2]

/-- C12 at an example: the session `demo` on a disk where no file can be
created, next to the same session on a disk where every file can. -/
theorem c12_open_failure_example :
    (Instrumentor.BeginSessionImpl "demo" "./" (fresh lockedDisk)).self.session_name_ =
      "demo" ∧
    (Instrumentor.BeginSessionImpl "demo" "./" (fresh lockedDisk)).self.is_active_ = true ∧
    (Instrumentor.BeginSessionImpl "demo" "./" (fresh lockedDisk)).disk =
      (Instrumentor.EndSessionImpl (fresh lockedDisk)).disk ∧
    (writeAll (Instrumentor.BeginSessionImpl "demo" "./" (fresh lockedDisk))
        [demoEvent, demoEvent]).disk =
      (Instrumentor.BeginSessionImpl "demo" "./" (fresh lockedDisk)).disk ∧
    (Instrumentor.EndSessionImpl
        (writeAll (Instrumentor.BeginSessionImpl "demo" "./" (fresh lockedDisk))
          [demoEvent, demoEvent])).disk =
      (Instrumentor.BeginSessionImpl "demo" "./" (fresh lockedDisk)).disk ∧
    (Instrumentor.BeginSessionImpl "demo" "./" (fresh emptyDisk)).self.output_stream_.file =
      some "./demo.json" ∧
    (writeAll (Instrumentor.BeginSessionImpl "demo" "./" (fresh lockedDisk))
        [demoEvent, demoEvent]).control =
      (writeAll (Instrumentor.BeginSessionImpl "demo" "./" (fresh emptyDisk))
        [demoEvent, demoEvent]).control ∧
    (Instrumentor.EndSessionImpl
        (writeAll (Instrumentor.BeginSessionImpl "demo" "./" (fresh lockedDisk))
          [demoEvent, demoEvent])).control =
      (Instrumentor.EndSessionImpl
        (writeAll (Instrumentor.BeginSessionImpl "demo" "./" (fresh emptyDisk))
          [demoEvent, demoEvent])).control :=
  c12_open_failure lockedDisk emptyDisk [] _ _ "demo" "./" [demoEvent, demoEvent]
    rfl rfl rfl rfl

/-- The flag and the counter follow `countStep` as long as the counter stays
an `int`. -/
theorem count_run : ∀ (calls : List Call) (w : World) (a : Bool) (n : Nat),
    w.self.is_active_ = a → w.self.profile_count_ = (n : Int) →
    n + calls.length ≤ 2147483647 →
    (run w calls).self.is_active_ = (calls.foldl countStep (a, n)).1 ∧
      (run w calls).self.profile_count_ = ((calls.foldl countStep (a, n)).2 : Int)
  | [], _, _, _, ha, hn, _ => ⟨ha, hn⟩
  | c :: cs, w, a, n, ha, hn, hb => by
    have hstep : run w (c :: cs) = run (c.apply w) cs := rfl
    have hfold : (c :: cs).foldl countStep (a, n) = cs.foldl countStep (countStep (a, n) c) :=
      rfl
    simp only [List.length_cons] at hb
    rw [hstep, hfold]
    cases c with
    | BeginSession name dir =>
      have h := Instrumentor.BeginSessionImpl_control w name dir
      cases a with
      | false =>
        refine count_run cs _ true n h.2.1 ?_ (by omega)
        exact h.2.2.trans (by simp [ha, hn])
      | true =>
        refine count_run cs _ true 0 h.2.1 ?_ (by omega)
        exact h.2.2.trans (by simp [ha])
    | EndSession =>
      have h := Instrumentor.EndSessionImpl_control w
      cases a with
      | false =>
        refine count_run cs _ false n h.2.1 ?_ (by omega)
        exact h.2.2.trans (by simp [ha, hn])
      | true =>
        refine count_run cs _ false 0 h.2.1 ?_ (by omega)
        exact h.2.2.trans (by simp [ha])
    | WriteProfile e =>
      have h := Instrumentor.WriteProfileImpl_control w e
      refine count_run cs _ a (n + 1) (h.2.1.trans ha) ?_ (by omega)
      refine h.2.2.trans ?_
      rw [hn, int32_succ (by omega) (by omega)]
      push_cast; rfl

/-- C14: in every state reached from the freshly constructed session by
fewer than `2 ^ 31` calls, the counter is not negative and is the number of
`WriteProfile` calls made since the last `EndSession` sequence that found the
session active, or since construction when there was none (`countAfter`);
when the state is inactive, neither `BeginSession` nor `EndSession` resets
the counter. -/
theorem c14_event_count (d : FileSystem) (calls : List Call) (w : World)
    (name dir : String)
    (hw : w = run (fresh d) calls)
    (hlen : calls.length < 2147483648) :
    0 ≤ w.self.profile_count_ ∧
    w.self.profile_count_ = ((countAfter calls).2 : Int) ∧
    w.self.is_active_ = (countAfter calls).1 ∧
    (w.self.is_active_ = false →
      (Instrumentor.BeginSessionImpl name dir w).self.profile_count_ =
        w.self.profile_count_ ∧
      (Instrumentor.EndSessionImpl w).self.profile_count_ = w.self.profile_count_) := by
  have h := count_run calls (fresh d) false 0 rfl rfl (by omega)
  rw [← hw] at h
  have hcount : w.self.profile_count_ = ((countAfter calls).2 : Int) := h.2
  refine ⟨by rw [hcount]; exact Int.ofNat_nonneg _, hcount, h.1, fun ha => ⟨?_, ?_⟩⟩
  · rw [(Instrumentor.BeginSessionImpl_control w name dir).2.2, ha]; rfl
  · rw [(Instrumentor.EndSessionImpl_control w).2.2, ha]; rfl

set_option maxRecDepth 8000 in
/-- C14 at an example: one event written while inactive, a session begun,
two events written, the session ended, one more event written: the counter
is one, and stays one through `BeginSession` and through `EndSession`. -/
theorem c14_event_count_example :
    (0 : Int) ≤ 1 ∧
    (run (fresh emptyDisk)
      [Call.WriteProfile demoEvent, Call.BeginSession "demo" "./",
        Call.WriteProfile demoEvent, Call.WriteProfile demoEvent, Call.EndSession,
        Call.WriteProfile demoEvent]).self.profile_count_ = 1 ∧
    (run (fresh emptyDisk)
      [Call.WriteProfile demoEvent, Call.BeginSession "demo" "./",
        Call.WriteProfile demoEvent, Call.WriteProfile demoEvent, Call.EndSession,
        Call.WriteProfile demoEvent]).self.is_active_ = false ∧
    ((run (fresh emptyDisk)
      [Call.WriteProfile demoEvent, Call.BeginSession "demo" "./",
        Call.WriteProfile demoEvent, Call.WriteProfile demoEvent, Call.EndSession,
        Call.WriteProfile demoEvent]).self.is_active_ = false →
      (Instrumentor.BeginSessionImpl "next" "./" (run (fresh emptyDisk)
        [Call.WriteProfile demoEvent, Call.BeginSession "demo" "./",
          Call.WriteProfile demoEvent, Call.WriteProfile demoEvent, Call.EndSession,
          Call.WriteProfile demoEvent])).self.profile_count_ = 1 ∧
      (Instrumentor.EndSessionImpl (run (fresh emptyDisk)
        [Call.WriteProfile demoEvent, Call.BeginSession "demo" "./",
          Call.WriteProfile demoEvent, Call.WriteProfile demoEvent, Call.EndSession,
          Call.WriteProfile demoEvent])).self.profile_count_ = 1) :=
  c14_event_count emptyDisk
    [Call.WriteProfile demoEvent, Call.BeginSession "demo" "./",
      Call.WriteProfile demoEvent, Call.WriteProfile demoEvent, Call.EndSession,
      Call.WriteProfile demoEvent] _ "next" "./" rfl (by decide)

/-- C15: after any calls, `BeginSession(name, dir)` on a path that can be
created, `WriteProfile` of the events of a list, an `EndSession` or none, and
a second `BeginSession(name, dir)`, the file at `dir ++ name ++ ".json"`
holds exactly the header: the second opening empties the file, so none of
the earlier events and no earlier footer is left. -/
theorem c15_begin_again_discards (d : FileSystem) (calls : List Call) (name dir : String)
    (events : List ProfileResult) (withEnd : Bool)
    (hcreate : d.creatable (dir ++ name ++ ".json") = true) :
    (run (fresh d)
        (calls ++ [Call.BeginSession name dir] ++ events.map Call.WriteProfile ++
          (if withEnd then [Call.EndSession] else []) ++
          [Call.BeginSession name dir])).disk.content (dir ++ name ++ ".json") =
      some "\x7b \"otherData\": \x7b\x7d, \"traceEvents\": [" := by
  rw [run_append _ _ [Call.BeginSession name dir]]
  have hb : ∀ v : World, run v [Call.BeginSession name dir] =
      Instrumentor.BeginSessionImpl name dir v := fun _ => rfl
  have hinv := inv_run
    (calls ++ [Call.BeginSession name dir] ++ events.map Call.WriteProfile ++
      (if withEnd then [Call.EndSession] else [])) (inv_fresh d)
  have hcr := creatable_run
    (calls ++ [Call.BeginSession name dir] ++ events.map Call.WriteProfile ++
      (if withEnd then [Call.EndSession] else [])) (inv_fresh d)
  rw [hb, Instrumentor.BeginSessionImpl_of_inv hinv name dir (by rw [hcr]; exact hcreate)]
  simp only [FileSystem.content_truncate_append, header]

set_option maxRecDepth 8000 in
/-- C15 at the demo, without and with an `EndSession` before the second
`BeginSession`; before it the file holds the event. -/
theorem c15_begin_again_discards_demo :
    (run (fresh emptyDisk)
        [Call.BeginSession "demo" "./",
          Call.WriteProfile demoEvent]).disk.content "./demo.json" =
      some "\x7b \"otherData\": \x7b\x7d, \"traceEvents\": [\x7b\"cat\": \"function\", \"dur\": 1000, \"name\": \"work\", \"ph\": \"X\", \"pid\": \"demo\", \"tid\": 7, \"ts\": 5\x7d" ∧
    (run (fresh emptyDisk)
        [Call.BeginSession "demo" "./", Call.WriteProfile demoEvent,
          Call.BeginSession "demo" "./"]).disk.content "./demo.json" =
      some "\x7b \"otherData\": \x7b\x7d, \"traceEvents\": [" ∧
    (run (fresh emptyDisk)
        [Call.BeginSession "demo" "./", Call.WriteProfile demoEvent, Call.EndSession,
          Call.BeginSession "demo" "./"]).disk.content "./demo.json" =
      some "\x7b \"otherData\": \x7b\x7d, \"traceEvents\": [" :=
  ⟨by decide,
    c15_begin_again_discards emptyDisk [] "demo" "./" [demoEvent] false rfl,
    c15_begin_again_discards emptyDisk [] "demo" "./" [demoEvent] true rfl⟩

/-- C16: after any calls and `BeginSession(S, dir)` on a path that can be
created, the object that `WriteProfile` writes has as its `pid` value the
session name `S` itself, no character replaced, while its `name` value is the
event name with the quotes replaced and holds no double quote; for the
session name `a"b`, which holds a double quote, the object holds
`"pid": "a"b"`. -/
theorem c16_pid_not_sanitized (d : FileSystem) (calls : List Call) (S dir : String)
    (e : ProfileResult)
    (hcreate : d.creatable (dir ++ S ++ ".json") = true) :
    (run (fresh d) (calls ++ [Call.BeginSession S dir, Call.WriteProfile e])).disk.content
        (dir ++ S ++ ".json") =
      some ("\x7b \"otherData\": \x7b\x7d, \"traceEvents\": [" ++
        separator (Instrumentor.EndSessionImpl (run (fresh d) calls)).self.profile_count_ ++
        ("\x7b\"cat\": \"function\", \"dur\": " ++ toString (int64 (e.end_ - e.start)) ++
          ", \"name\": \"" ++ Instrumentor.replaceQuotes e.name ++
          "\", \"ph\": \"X\", \"pid\": \"" ++ S ++
          "\", \"tid\": " ++ toString e.thread_id ++
          ", \"ts\": " ++ toString e.start ++ "\x7d")) ∧
    '"' ∉ (Instrumentor.replaceQuotes e.name).data ∧
    '"' ∈ quotedSession.data ∧
    (run (fresh emptyDisk)
        [Call.BeginSession quotedSession "./",
          Call.WriteProfile quotedEvent]).disk.content "./a\"b.json" =
      some "\x7b \"otherData\": \x7b\x7d, \"traceEvents\": [\x7b\"cat\": \"function\", \"dur\": 1000, \"name\": \"work 'A'\", \"ph\": \"X\", \"pid\": \"a\"b\", \"tid\": 7, \"ts\": 5\x7d" := by
  have hinv := inv_run calls (inv_fresh d)
  have hcr : (run (fresh d) calls).disk.creatable (dir ++ S ++ ".json") = true := by
    rw [creatable_run calls (inv_fresh d)]; exact hcreate
  have hstep : ∀ v : World, run v [Call.BeginSession S dir, Call.WriteProfile e] =
      Instrumentor.WriteProfileImpl e (Instrumentor.BeginSessionImpl S dir v) := fun _ => rfl
  have hdata : (Instrumentor.replaceQuotes e.name).data =
      e.name.data.map (fun c => if c = '"' then '\'' else c) := rfl
  refine ⟨?_, ?_, by decide, by decide⟩
  · rw [run_append, hstep, Instrumentor.BeginSessionImpl_of_inv hinv S dir hcr,
      Instrumentor.WriteProfileImpl_of_open (p := dir ++ S ++ ".json") ⟨rfl, rfl⟩]
    simp only [FileSystem.append_append, FileSystem.content_truncate_append,
      eventObject_text, header, String.append_assoc]
  · rw [hdata, List.mem_map]
    rintro ⟨c, _, hq⟩
    by_cases h : c = '"'
    · rw [if_pos h] at hq; exact absurd hq (by decide)
    · rw [if_neg h] at hq; exact h hq

set_option maxRecDepth 8000 in
/-- C16 at an example: the event `work "A"` in the session `a"b`. -/
theorem c16_pid_not_sanitized_example :
    (run (fresh emptyDisk)
        ([] ++ [Call.BeginSession quotedSession "./",
          Call.WriteProfile quotedEvent])).disk.content ("./" ++ quotedSession ++ ".json") =
      some "\x7b \"otherData\": \x7b\x7d, \"traceEvents\": [\x7b\"cat\": \"function\", \"dur\": 1000, \"name\": \"work 'A'\", \"ph\": \"X\", \"pid\": \"a\"b\", \"tid\": 7, \"ts\": 5\x7d" :=
  (c16_pid_not_sanitized emptyDisk [] quotedSession "./" quotedEvent rfl).1
